import Mathlib

/-!
The captcha gate of `captcha.go` (package apicaptcha).

A shallow embedding of `Captcha.ServeHTTP` (src/captcha.go) and of the error
table of src/error_define.go.

* Strings are Lean `String`s; `fmt.Sprintf("%s|%s", a, b)` is `a ++ "|" ++ b`.
* Go's `int` is modelled as `Int`, 64 bits wide: the one arithmetic operation
  of the handler, `item.MustInt(0)+1`, wraps (`wrapInt`).
* The handler is a state-passing function.  The state holds the failure
  tracker (`ca.captchaCache`) and the state of the challenge engine
  (`github.com/dchest/captcha`, a global store in Go).  Every call that leaves
  the handler (downstream `next`, the challenge engine, the tracker, the
  response writers) is recorded, in order, in the list of events returned
  next to the new state.
* A Go panic (nil `*CaptchaConfig` dereferenced) is the result `none`.
* The packages `go-apibox/cache`, `go-apibox/utils`, `go-apibox/api` and
  `dchest/captcha` are not part of the repository.  The matcher and the
  challenge engine are parameters; the tracker follows its contract in the
  specification.
* `NewCaptcha` and `init` take the configured values and the white-list
  constructor of the matcher as arguments.
* Two requests that run at once are modelled by the tracker calls of the
  failure branch, `Get` then `Set`, run under a schedule (`interleave`).
-/

namespace Apicaptcha

/-! ## Go integers -/

/-- Largest value of Go's `int` (64 bits). -/
def maxInt : Int := 2 ^ 63 - 1

/-- Smallest value of Go's `int` (64 bits). -/
def minInt : Int := -(2 ^ 63)

/-- Result of an `int` operation whose mathematical value is `x`: Go wraps
around in two's complement. -/
def wrapInt (x : Int) : Int := (x + 2 ^ 63) % 2 ^ 64 - 2 ^ 63

/-- Value of a decimal digit, `none` for any other character. -/
def digitVal (c : Char) : Option Nat :=
  if 48 ≤ c.toNat ∧ c.toNat ≤ 57 then some (c.toNat - 48) else none

/-- Decimal value of a run of digits, most significant first. -/
def parseDigits : List Char → Nat → Option Nat
  | [], acc => some acc
  | c :: cs, acc =>
    match digitVal c with
    | none => none
    | some d => parseDigits cs (acc * 10 + d)

/-- Go's `strconv.Atoi`: an optional sign, then one or more decimal digits,
and the value has to fit an `int`; `none` stands for a non-nil `err`. -/
def Atoi (s : String) : Option Int :=
  match s.data with
  | [] => none
  | c :: cs =>
    let ds := if c.toNat = 45 ∨ c.toNat = 43 then cs else c :: cs
    if ds.isEmpty then none
    else
      match parseDigits ds 0 with
      | none => none
      | some n =>
        let v : Int := if c.toNat = 45 then -(n : Int) else (n : Int)
        if minInt ≤ v ∧ v ≤ maxInt then some v else none

/-! ## Request data -/

/-- Go's `url.Values` (`map[string][]string`), the type of `r.Form`. -/
structure Values where
  entries : List (String × List String)

/-- The method `url.Values.Get`: the first value stored under `key`, the empty string
when there is none.  `r.FormValue(key)` reads `r.Form` the same way. -/
def Values.Get (v : Values) (key : String) : String :=
  match v.entries.lookup key with
  | some (x :: _) => x
  | _ => ""

/-- What one call of `ServeHTTP` receives from outside the component. -/
structure Request where
  /-- The `err` of `api.NewContext(ca.app, w, r)`, `none` for `nil`. -/
  newContextErr : Option String
  /-- The value of `c.Input.GetAction()`. -/
  action : String
  /-- The parsed form `r.Form`. -/
  Form : Values
  /-- The value of `api.IsError(c.Get("returnData"))` once `next(w, r)` has run. -/
  returnDataIsError : Bool

/-! ## Error table (error_define.go) -/

/-- The Go type `api.ErrorDefine` as built by `api.NewErrorDefine`. -/
structure ErrorDefine where
  name : String
  codes : List Int
  messages : List (String × List (Int × String))
  deriving DecidableEq, Repr

/-- First constant of the `iota` block. -/
def errorMissingCaptcha : Nat := 0

/-- Second constant of the `iota` block. -/
def errorWrongCaptcha : Nat := 1

/-- The table `ErrorDefines` registered under the group "captcha". -/
def ErrorDefines : List (Nat × ErrorDefine) :=
  [ (errorMissingCaptcha,
      ⟨"MissingCaptcha", [0],
        [("en_us", [(0, "Missing captcha!")]), ("zh_cn", [(0, "缺少验证码！")])]⟩),
    (errorWrongCaptcha,
      ⟨"WrongCaptcha", [0],
        [("en_us", [(0, "Wrong captcha!")]), ("zh_cn", [(0, "验证码错误！")])]⟩) ]

/-- Name under which an error type of the group "captcha" is reported. -/
def errorName (t : Nat) : Option String :=
  (ErrorDefines.lookup t).map ErrorDefine.name

/-! ## Observable effects -/

/-- Argument of `api.WriteResponse`. -/
inductive Response where
  /-- A result mapping. -/
  | result (data : List (String × String))
  /-- The value of `c.Error.NewGroupError(group, errType)`. -/
  | groupError (group : String) (errType : Nat)
  deriving DecidableEq, Repr

/-- Calls made by `ServeHTTP`, in the order of the source. -/
inductive Event where
  /-- The call `next(w, r)`: the downstream operation. -/
  | next
  /-- The call `http.Error(w, msg, code)`. -/
  | httpError (msg : String) (code : Nat)
  /-- The call `http.NotFound(w, r)`. -/
  | notFound
  /-- The call `api.WriteResponse(c, resp)`. -/
  | writeResponse (resp : Response)
  /-- The call `captcha.NewLen(length)`. -/
  | newLen (length : Int)
  /-- The call `captcha.Reload(id)`. -/
  | reload (id : String)
  /-- The call `captcha.VerifyString(id, code)`. -/
  | verifyString (id code : String)
  /-- The call `captcha.WriteImage(w, id, width, height)`. -/
  | writeImage (id : String) (width height : Int)
  /-- The call `ca.captchaCache.Get(key)`. -/
  | cacheGet (key : String)
  /-- The call `ca.captchaCache.Has(key)`. -/
  | cacheHas (key : String)
  /-- The call `ca.captchaCache.Set(key, value)`. -/
  | cacheSet (key : String) (value : Int)
  deriving DecidableEq, Repr

/-- The rejection written at line 178. -/
def missingCaptcha : Event := .writeResponse (.groupError "captcha" errorMissingCaptcha)

/-- The rejection written at line 184. -/
def wrongCaptcha : Event := .writeResponse (.groupError "captcha" errorWrongCaptcha)

/-! ## Failure tracker -/

/-- Modelled from the spec: the failure tracker `cache.Cache` of package
`go-apibox/cache`, which is not part of this repository.  It follows the
contract `Get`/`Set`/`Has` of the Failure Tracker: a mapping from keys to
counts.  The handler stores nothing but `int`s, so a stored item is an `Int`
and `item.MustInt(0)` is the item itself.  A value of this type is the logical
content of the cache at one instant; expiry of entries between two requests is
not modelled. -/
@[ext]
structure Cache where
  items : String → Option Int

/-- Modelled from the spec: the tracker made by `cache.NewCacheEx` holds no entry. -/
def NewCacheEx : Cache := ⟨fun _ => none⟩

/-- Modelled from the spec: `Get(key) -> (count, found)`; `none` is `found = false`. -/
def Cache.Get (c : Cache) (key : String) : Option Int := c.items key

/-- Modelled from the spec: `Has(key) -> bool`. -/
def Cache.Has (c : Cache) (key : String) : Bool := (c.items key).isSome

/-- Modelled from the spec: `Set(key, count)` stores the value under the key. -/
def Cache.Set (c : Cache) (key : String) (value : Int) : Cache :=
  ⟨fun k => if k = key then some value else c.items k⟩

/-! ## Challenge engine -/

/-- Outcome of `captcha.WriteImage`. -/
inductive WriteImageResult where
  | ok
  | errNotFound
  | otherError
  deriving DecidableEq, Repr

/-- The functions of `github.com/dchest/captcha` the handler calls, over an
engine state `σ` (the global store of that package). -/
structure Engine (σ : Type) where
  NewLen : Int → σ → String × σ
  Reload : String → σ → Bool × σ
  VerifyString : String → String → σ → Bool × σ
  WriteImage : String → Int → Int → σ → WriteImageResult × σ

/-! ## The component -/

/-- The struct `CaptchaConfig`. -/
structure CaptchaConfig where
  identifier : String
  maxFailCount : Int
  deriving DecidableEq, Repr

/-- The struct `Captcha`, without `app` and without `captchaCache`, which is
part of `State`.  `captchaMatcher` is `ca.captchaMatcher.Match`, and
`captchaConfigs` is the map lookup, `none` for the nil pointer of a missing
key. -/
structure Captcha where
  disabled : Bool
  inited : Bool
  getAction : String
  showAction : String
  captchaLength : Int
  imgWidth : Int
  imgHeight : Int
  captchaMatcher : String → Bool
  captchaConfigs : String → Option CaptchaConfig

/-- The mutable state a request works on. -/
structure State (σ : Type) where
  captchaCache : Cache
  store : σ

/-- The tracker key `fmt.Sprintf("%s|%s", action, idVal)` (lines 167 and 201). -/
def cacheKey (action idVal : String) : String := action ++ "|" ++ idVal

/-- Lines 160-172: the value of `needCaptcha` and the tracker call made to find it. -/
def thresholdCheck (cfg : CaptchaConfig) (cache : Cache) (action : String) (form : Values) :
    Bool × List Event :=
  if cfg.maxFailCount = 0 then (true, [])
  else
    let key := cacheKey action (form.Get cfg.identifier)
    match cache.Get key with
    | some item => (decide (item > cfg.maxFailCount), [.cacheGet key])
    | none => (false, [.cacheGet key])

/-- The local variable `needCaptcha` at line 174. -/
def needCaptcha (cfg : CaptchaConfig) (cache : Cache) (action : String) (form : Values) : Bool :=
  (thresholdCheck cfg cache action form).1

/-- Lines 196-218: the update of the failure count after `next` has run. -/
def counterUpdate (cfg : CaptchaConfig) (cache : Cache) (action : String) (form : Values)
    (isError : Bool) : Cache × List Event :=
  if cfg.maxFailCount > 0 then
    let key := cacheKey action (form.Get cfg.identifier)
    if isError then
      match cache.Get key with
      | none => (cache.Set key 1, [.cacheGet key, .cacheSet key 1])
      | some item =>
        (cache.Set key (wrapInt (item + 1)), [.cacheGet key, .cacheSet key (wrapInt (item + 1))])
    else if cache.Has key then (cache.Set key 0, [.cacheHas key, .cacheSet key 0])
    else (cache, [.cacheHas key])
  else (cache, [])

/-- Lines 193-218: `next(w, r)` and the counter update, after the events `ev`. -/
def serveNext {σ : Type} (cfg : CaptchaConfig) (r : Request) (cache : Cache) (st : σ)
    (ev : List Event) : State σ × List Event :=
  let upd := counterUpdate cfg cache r.action r.Form r.returnDataIsError
  (⟨upd.1, st⟩, ev ++ [Event.next] ++ upd.2)

/-- Lines 126-136: a `Width` or `Height` parameter, or the configured default. -/
def imageSize (param : String) (dflt : Int) : Int :=
  if param ≠ "" then
    match Atoi param with
    | some w => if w < 300 then w else dflt
    | none => dflt
  else dflt

/-- Lines 119-145: the case `ca.showAction` of the switch. -/
def serveShow {σ : Type} (ca : Captcha) (eng : Engine σ) (r : Request) (s : State σ) :
    State σ × List Event :=
  let id := r.Form.Get "CaptchaId"
  if id = "" then (s, [.notFound])
  else
    let imgWidth := imageSize (r.Form.Get "Width") ca.imgWidth
    let imgHeight := imageSize (r.Form.Get "Height") ca.imgHeight
    let rl : σ × List Event :=
      if r.Form.Get "Reload" ≠ "" then ((eng.Reload id s.store).2, [.reload id])
      else (s.store, [])
    let img := eng.WriteImage id imgWidth imgHeight rl.1
    (⟨s.captchaCache, img.2⟩,
      rl.2 ++ [Event.writeImage id imgWidth imgHeight]
        ++ (if img.1 = WriteImageResult.errNotFound then [Event.notFound] else []))

/-- Lines 154-218: a request to an action the matcher accepted, with its policy. -/
def serveGated {σ : Type} (cfg : CaptchaConfig) (eng : Engine σ) (r : Request) (s : State σ) :
    State σ × List Event :=
  let chk := thresholdCheck cfg s.captchaCache r.action r.Form
  if chk.1 then
    let id := r.Form.Get "CaptchaId"
    let code := r.Form.Get "CaptchaCode"
    if id = "" ∨ code = "" then (s, chk.2 ++ [missingCaptcha])
    else
      let v := eng.VerifyString id code s.store
      let st := (eng.Reload id v.2).2
      if v.1 then
        serveNext cfg r s.captchaCache st (chk.2 ++ [.verifyString id code, .reload id])
      else
        (⟨s.captchaCache, st⟩, chk.2 ++ [.verifyString id code, .reload id, wrongCaptcha])
  else serveNext cfg r s.captchaCache s.store chk.2

/-- The method `Captcha.ServeHTTP`; `none` is the panic of reading `maxFailCount` through
the nil pointer that `ca.captchaConfigs[action]` yields for a missing key. -/
def ServeHTTP {σ : Type} (ca : Captcha) (eng : Engine σ) (r : Request) (s : State σ) :
    Option (State σ × List Event) :=
  if ca.disabled then some (s, [.next])
  else
    match r.newContextErr with
    | some err => some (s, [.httpError err 500])
    | none =>
      if r.action = ca.getAction then
        let n := eng.NewLen ca.captchaLength s.store
        some (⟨s.captchaCache, n.2⟩,
          [.newLen ca.captchaLength, .writeResponse (.result [("CaptchaId", n.1)])])
      else if r.action = ca.showAction then some (serveShow ca eng r s)
      else if !ca.captchaMatcher r.action then some (s, [.next])
      else
        match ca.captchaConfigs r.action with
        | none => none
        | some cfg => some (serveGated cfg eng r s)

/-- Consecutive calls of `ServeHTTP`, one request after the other on the same
component; the result lists the events of each request. -/
def serveAll {σ : Type} (ca : Captcha) (eng : Engine σ) :
    List Request → State σ → Option (State σ × List (List Event))
  | [], s => some (s, [])
  | r :: rs, s =>
    match ServeHTTP ca eng r s with
    | none => none
    | some (s1, out) =>
      match serveAll ca eng rs s1 with
      | none => none
      | some (s2, outs) => some (s2, out :: outs)

/-! ## Challenge store of the specification -/

/-- Modelled from the spec: the challenge store behind the Challenge Lifecycle
contract (package `github.com/dchest/captcha` is not part of this repository).
Each challenge id has one expected answer; `issued` counts the challenges
created so far. -/
structure ChallengeStore where
  expected : String → Option String
  issued : Nat

/-- Modelled from the spec: the source of ids and answers of the challenge
store, random in the engine.  `newId n` and `newAnswer n length` belong to the
challenge issued after `n` others, `rotate a` is the answer that replaces `a`. -/
structure Generator where
  newId : Nat → String
  newAnswer : Nat → Int → String
  rotate : String → String

/-- Modelled from the spec: the Challenge Lifecycle contract.  `Issue` creates
a challenge and its expected answer, `Verify` compares with the expected
answer, `Reload` assigns a new expected answer under the same id, `Render`
reports NotFound for an unknown id. -/
def specEngine (g : Generator) : Engine ChallengeStore where
  NewLen length st :=
    (g.newId st.issued,
      ⟨fun i => if i = g.newId st.issued then some (g.newAnswer st.issued length)
        else st.expected i, st.issued + 1⟩)
  Reload id st :=
    match st.expected id with
    | none => (false, st)
    | some a => (true, ⟨fun i => if i = id then some (g.rotate a) else st.expected i, st.issued⟩)
  VerifyString id code st := (decide (st.expected id = some code), st)
  WriteImage id _ _ st :=
    (if (st.expected id).isSome then WriteImageResult.ok else WriteImageResult.errNotFound, st)

/-! ## Sample data -/

/-- A component with the default settings of lines 61-65 whose protected set is
a list of exact action names, each with its policy. -/
def exactGate (actions : List (String × CaptchaConfig)) : Captcha where
  disabled := false
  inited := true
  getAction := "GetCaptcha"
  showAction := "ShowCaptcha"
  captchaLength := 4
  imgWidth := 180
  imgHeight := 60
  captchaMatcher a := (actions.lookup a).isSome
  captchaConfigs a := actions.lookup a

/-- A sample component: "Login" is gated after more than 2 failures per `User`,
"Pay" after more than 1, "Register" always. -/
def sampleGate : Captcha :=
  exactGate [("Login", ⟨"User", 2⟩), ("Pay", ⟨"User", 1⟩), ("Register", ⟨"", 0⟩)]

/-- A sample generator: the replacement of an answer is the answer with a digit
put in front. -/
def sampleGenerator : Generator where
  newId n := "id" ++ toString n
  newAnswer _ _ := "0000"
  rotate a := "7" ++ a

/-- A sample challenge store: the challenge "c1" expects the answer "1234". -/
def sampleStore : ChallengeStore :=
  ⟨fun i => if i = "c1" then some "1234" else none, 1⟩

/-- A sample state: no failure recorded, one challenge issued. -/
def sampleState : State ChallengeStore := ⟨NewCacheEx, sampleStore⟩

/-- A request to `action` with the given form fields, whose context is created
and whose downstream outcome is `isError`. -/
def mkRequest (action : String) (fields : List (String × String)) (isError : Bool) : Request :=
  ⟨none, action, ⟨fields.map fun f => (f.1, [f.2])⟩, isError⟩

/-- A tracker state in which alice has 2 recorded failures on "Pay", above its
threshold 1. -/
def gatedState : State ChallengeStore :=
  ⟨NewCacheEx.Set "Pay|alice" 2, sampleStore⟩

/-- A tracker state in which the count of alice on "Login" is the largest Go
`int`. -/
def saturatedState : State ChallengeStore :=
  ⟨NewCacheEx.Set "Login|alice" 9223372036854775807, sampleStore⟩

/-- A component with two protected actions, "a" and "a|b", each gated after
more than 1 failure per `User`. -/
def collidingGate : Captcha :=
  exactGate [("a", ⟨"User", 1⟩), ("a|b", ⟨"User", 1⟩)]

/-- Calls of the failure tracker among the events. -/
def Event.isTracker : Event → Bool
  | .cacheGet _ => true
  | .cacheHas _ => true
  | .cacheSet _ _ => true
  | _ => false

/-- Events of a request that passes the gate unverified and records a failure. -/
def failureEvents (key : String) (count : Int) : List Event :=
  [Event.cacheGet key, Event.next, Event.cacheGet key, Event.cacheSet key count]

/-! ## Construction -/

/-- The settings `NewCaptcha` and `init` read from `app.Config`.  A field is
`none` when the key is not configured, in which case the `GetDefault...` call
yields its default.  `actions` is the map `apicaptcha.actions`: for each action
name, its `identifier` and `max_fail_count` (lines 76-77). -/
structure Config where
  disabled : Option Bool
  getAction : Option String
  showAction : Option String
  captchaLength : Option Int
  imgWidth : Option Int
  imgHeight : Option Int
  actions : List (String × Option String × Option Int)

/-- The value of `new(Captcha)` with the `disabled` flag set at line 45: every
other field has its zero value; the nil matcher and the nil map have no entry. -/
def newCaptcha (disabled : Bool) : Captcha where
  disabled := disabled
  inited := false
  getAction := ""
  showAction := ""
  captchaLength := 0
  imgWidth := 0
  imgHeight := 0
  captchaMatcher _ := false
  captchaConfigs _ := none

/-- The policy table built by the loop of lines 72-79, as the lookup
`captchaConfigs[action]`. -/
def initConfigs (actions : List (String × Option String × Option Int)) (action : String) :
    Option CaptchaConfig :=
  (actions.lookup action).map fun p => ⟨p.1.getD "", p.2.getD 0⟩

/-- The method `Captcha.init`, with the tracker it creates at line 93.  The
parameter `setWhiteList` is `utils.NewMatcher().SetWhiteList`: it turns the list
of configured action names into the test `Match`. -/
def Captcha.init (ca : Captcha) (cfg : Config) (setWhiteList : List String → String → Bool) :
    Captcha × Option Cache :=
  if ca.inited then (ca, none)
  else
    ({ disabled := ca.disabled
       inited := true
       getAction := cfg.getAction.getD "GetCaptcha"
       showAction := cfg.showAction.getD "ShowCaptcha"
       captchaLength := cfg.captchaLength.getD 4
       imgWidth := cfg.imgWidth.getD 180
       imgHeight := cfg.imgHeight.getD 60
       captchaMatcher := setWhiteList (cfg.actions.map Prod.fst)
       captchaConfigs := initConfigs cfg.actions },
      some NewCacheEx)

/-- The function `NewCaptcha`: the component and the tracker it owns, `none`
when no tracker was created. -/
def NewCaptcha (cfg : Config) (setWhiteList : List String → String → Bool) :
    Captcha × Option Cache :=
  if cfg.disabled.getD false then (newCaptcha true, none)
  else (newCaptcha false).init cfg setWhiteList

/-- A white list of exact names: `Match` accepts the listed names only. -/
def exactMatcher (whiteList : List String) (action : String) : Bool :=
  whiteList.contains action

/-- Modelled from the spec: an Action Matcher with wildcard/prefix matching.  A
listed name matches itself, and a listed name that ends in `*` matches every
action name that starts with what stands before the `*`. -/
def wildcardMatcher (whiteList : List String) (action : String) : Bool :=
  whiteList.any fun p =>
    p == action ||
      (p.data.getLast? == some (Char.ofNat 42) && p.data.dropLast.isPrefixOf action.data)

/-- A configuration with default settings and one protected entry, the pattern
"User.*" with the policy `(User, 2)`. -/
def patternConfig : Config :=
  ⟨none, none, none, none, none, none, [("User.*", some "User", some 2)]⟩

/-- A configuration whose disable flag is set and which lists a protected action. -/
def disabledConfig : Config :=
  ⟨some true, none, none, none, none, none, [("Login", some "User", some 2)]⟩

/-- A configuration with default settings where "Login" has the policy `(User, 2)`
and "Register" has no setting, hence the policy `("", 0)`. -/
def plainConfig : Config :=
  ⟨none, none, none, none, none, none, [("Login", some "User", some 2), ("Register", none, none)]⟩

/-! ## Two requests at once -/

/-- A request inside the failure branch of lines 203-210, seen between its two
tracker calls: it has not called `Get` yet, it holds what `Get` returned (`none`
for `has = false`), or it has called `Set`. -/
inductive Incr where
  | start
  | read (item : Option Int)
  | done
  deriving DecidableEq, Repr

/-- The next tracker call of a request in the failure branch on the shared
tracker: the `Get` of line 205, then the `Set` of line 207 or of line 209 with
the value read before. -/
def Incr.step (key : String) (cache : Cache) : Incr → Cache × Incr
  | .start => (cache, .read (cache.Get key))
  | .read none => (cache.Set key 1, .done)
  | .read (some item) => (cache.Set key (wrapInt (item + 1)), .done)
  | .done => (cache, .done)

/-- Two requests in the failure branch for the same key, run under a schedule:
at `false` the first request makes its next tracker call, at `true` the second
one does. -/
def interleave (key : String) : List Bool → Cache × Incr × Incr → Cache × Incr × Incr
  | [], st => st
  | false :: sch, (c, t1, t2) => interleave key sch ((t1.step key c).1, (t1.step key c).2, t2)
  | true :: sch, (c, t1, t2) => interleave key sch ((t2.step key c).1, t1, (t2.step key c).2)

/-! ## Basic facts -/

theorem Cache.Get_Set_self (c : Cache) (key : String) (v : Int) :
    (c.Set key v).Get key = some v := by
  simp [Cache.Get, Cache.Set]

theorem Cache.Get_Set_of_ne (c : Cache) {key k : String} (v : Int) (h : k ≠ key) :
    (c.Set key v).Get k = c.Get k := by
  simp [Cache.Get, Cache.Set, h]

theorem thresholdCheck_events (cfg : CaptchaConfig) (cache : Cache) (action : String)
    (form : Values) :
    (thresholdCheck cfg cache action form).2 =
      if cfg.maxFailCount = 0 then []
      else [Event.cacheGet (cacheKey action (form.Get cfg.identifier))] := by
  unfold thresholdCheck
  split
  · rfl
  · dsimp only
    split <;> rfl

theorem needCaptcha_eq (cfg : CaptchaConfig) (cache : Cache) (action : String) (form : Values) :
    needCaptcha cfg cache action form =
      (decide (cfg.maxFailCount = 0) ||
        match cache.Get (cacheKey action (form.Get cfg.identifier)) with
        | some item => decide (item > cfg.maxFailCount)
        | none => false) := by
  unfold needCaptcha thresholdCheck
  split
  · simp [*]
  · dsimp only
    split <;> simp [*]

theorem ServeHTTP_gated {σ : Type} (ca : Captcha) (eng : Engine σ) (r : Request) (s : State σ)
    (cfg : CaptchaConfig) (hen : ca.disabled = false) (hctx : r.newContextErr = none)
    (hget : r.action ≠ ca.getAction) (hshow : r.action ≠ ca.showAction)
    (hmatch : ca.captchaMatcher r.action = true) (hcfg : ca.captchaConfigs r.action = some cfg) :
    ServeHTTP ca eng r s = some (serveGated cfg eng r s) := by
  simp [ServeHTTP, hen, hctx, hget, hshow, hmatch, hcfg]

theorem ServeHTTP_get {σ : Type} (ca : Captcha) (eng : Engine σ) (r : Request) (s : State σ)
    (hen : ca.disabled = false) (hctx : r.newContextErr = none)
    (hget : r.action = ca.getAction) :
    ServeHTTP ca eng r s =
      some (⟨s.captchaCache, (eng.NewLen ca.captchaLength s.store).2⟩,
        [Event.newLen ca.captchaLength,
          Event.writeResponse
            (Response.result [("CaptchaId", (eng.NewLen ca.captchaLength s.store).1)])]) := by
  simp only [ServeHTTP, hen, hctx, if_pos hget, Bool.false_eq_true, if_false]

theorem ServeHTTP_show {σ : Type} (ca : Captcha) (eng : Engine σ) (r : Request) (s : State σ)
    (hen : ca.disabled = false) (hctx : r.newContextErr = none)
    (hget : r.action ≠ ca.getAction) (hshow : r.action = ca.showAction) :
    ServeHTTP ca eng r s = some (serveShow ca eng r s) := by
  simp only [ServeHTTP, hen, hctx, if_neg hget, if_pos hshow, Bool.false_eq_true, if_false]

theorem next_not_mem_serveShow {σ : Type} (ca : Captcha) (eng : Engine σ) (r : Request)
    (s : State σ) : Event.next ∉ (serveShow ca eng r s).2 := by
  unfold serveShow
  dsimp only
  split
  · simp
  · split <;> split <;> simp

theorem thresholdCheck_isTracker (cfg : CaptchaConfig) (cache : Cache) (action : String)
    (form : Values) :
    ∀ e ∈ (thresholdCheck cfg cache action form).2, e.isTracker = true := by
  intro e he
  rw [thresholdCheck_events] at he
  split at he
  · simp at he
  · simp only [List.mem_singleton] at he
    subst he
    rfl

theorem counterUpdate_isTracker (cfg : CaptchaConfig) (cache : Cache) (action : String)
    (form : Values) (isError : Bool) :
    ∀ e ∈ (counterUpdate cfg cache action form isError).2, e.isTracker = true := by
  intro e he
  unfold counterUpdate at he
  split at he
  · dsimp only at he
    split at he
    · split at he <;>
        (simp only [List.mem_cons, List.mem_singleton, List.not_mem_nil, or_false] at he
         rcases he with rfl | rfl <;> rfl)
    · split at he
      · simp only [List.mem_cons, List.mem_singleton, List.not_mem_nil, or_false] at he
        rcases he with rfl | rfl <;> rfl
      · simp only [List.mem_singleton] at he
        subst he
        rfl
  · simp at he

theorem serveGated_missing {σ : Type} (cfg : CaptchaConfig) (eng : Engine σ) (r : Request)
    (s : State σ) (hneed : needCaptcha cfg s.captchaCache r.action r.Form = true)
    (hmiss : r.Form.Get "CaptchaId" = "" ∨ r.Form.Get "CaptchaCode" = "") :
    serveGated cfg eng r s =
      (s, (thresholdCheck cfg s.captchaCache r.action r.Form).2 ++ [missingCaptcha]) := by
  have hchk : (thresholdCheck cfg s.captchaCache r.action r.Form).1 = true := hneed
  simp only [serveGated, hchk, if_true, hmiss]

theorem serveGated_wrong {σ : Type} (cfg : CaptchaConfig) (eng : Engine σ) (r : Request)
    (s : State σ) (hneed : needCaptcha cfg s.captchaCache r.action r.Form = true)
    (hid : r.Form.Get "CaptchaId" ≠ "") (hcode : r.Form.Get "CaptchaCode" ≠ "")
    (hv : (eng.VerifyString (r.Form.Get "CaptchaId") (r.Form.Get "CaptchaCode") s.store).1
      = false) :
    serveGated cfg eng r s =
      (⟨s.captchaCache,
          (eng.Reload (r.Form.Get "CaptchaId")
            (eng.VerifyString (r.Form.Get "CaptchaId") (r.Form.Get "CaptchaCode")
              s.store).2).2⟩,
        (thresholdCheck cfg s.captchaCache r.action r.Form).2 ++
          [Event.verifyString (r.Form.Get "CaptchaId") (r.Form.Get "CaptchaCode"),
            Event.reload (r.Form.Get "CaptchaId"), wrongCaptcha]) := by
  have hchk : (thresholdCheck cfg s.captchaCache r.action r.Form).1 = true := hneed
  simp only [serveGated, hchk, if_true, hid, hcode, or_self, if_false, hv, Bool.false_eq_true]

theorem serveGated_verified {σ : Type} (cfg : CaptchaConfig) (eng : Engine σ) (r : Request)
    (s : State σ) (hneed : needCaptcha cfg s.captchaCache r.action r.Form = true)
    (hid : r.Form.Get "CaptchaId" ≠ "") (hcode : r.Form.Get "CaptchaCode" ≠ "")
    (hv : (eng.VerifyString (r.Form.Get "CaptchaId") (r.Form.Get "CaptchaCode") s.store).1
      = true) :
    serveGated cfg eng r s =
      serveNext cfg r s.captchaCache
        (eng.Reload (r.Form.Get "CaptchaId")
          (eng.VerifyString (r.Form.Get "CaptchaId") (r.Form.Get "CaptchaCode") s.store).2).2
        ((thresholdCheck cfg s.captchaCache r.action r.Form).2 ++
          [Event.verifyString (r.Form.Get "CaptchaId") (r.Form.Get "CaptchaCode"),
            Event.reload (r.Form.Get "CaptchaId")]) := by
  have hchk : (thresholdCheck cfg s.captchaCache r.action r.Form).1 = true := hneed
  simp only [serveGated, hchk, if_true, hid, hcode, or_self, if_false, hv]

theorem serveGated_free {σ : Type} (cfg : CaptchaConfig) (eng : Engine σ) (r : Request)
    (s : State σ) (hneed : needCaptcha cfg s.captchaCache r.action r.Form = false) :
    serveGated cfg eng r s =
      serveNext cfg r s.captchaCache s.store
        (thresholdCheck cfg s.captchaCache r.action r.Form).2 := by
  have hchk : (thresholdCheck cfg s.captchaCache r.action r.Form).1 = false := hneed
  simp only [serveGated, hchk, Bool.false_eq_true, if_false]

/-- An event that is no tracker call is none of the events of a list of tracker calls. -/
theorem not_mem_of_isTracker {l : List Event} (h : ∀ e ∈ l, e.isTracker = true) {e : Event}
    (he : e.isTracker = false) : e ∉ l := by
  intro hm
  have := h e hm
  rw [he] at this
  exact Bool.false_ne_true this

/-! ## Claims -/

/-- C4: a request whose action is neither the issuance action, nor the render
action, nor accepted by the matcher makes exactly one call, the downstream
`next`, and leaves the tracker and the challenge engine as they were: no tracker
call, no `VerifyString`, no `Reload`, no rejection, whatever the form and the
downstream outcome. -/
theorem C4_unmatched_action_passes_through {σ : Type} (ca : Captcha) (eng : Engine σ)
    (r : Request) (s : State σ) (hctx : r.newContextErr = none)
    (hget : r.action ≠ ca.getAction) (hshow : r.action ≠ ca.showAction)
    (hmatch : ca.captchaMatcher r.action = false) :
    ServeHTTP ca eng r s = some (s, [Event.next]) := by
  simp [ServeHTTP, hctx, hget, hshow, hmatch]

/-- C3: on an enabled component, for an action the matcher accepts whose policy
has `maxFailCount = 0`, `needCaptcha` is true for every tracker content and
every form, and the handler returns; the downstream `next` runs only if the
request carries a non-empty `CaptchaId` and `CaptchaCode` that `VerifyString`
accepts.  When the action is neither the issuance nor the render action, `next`
runs exactly in that case, and every other request is rejected with
MissingCaptcha or WrongCaptcha. -/
theorem C3_zero_threshold_requires_verification {σ : Type} (ca : Captcha) (eng : Engine σ)
    (r : Request) (s : State σ) (cfg : CaptchaConfig)
    (hen : ca.disabled = false) (hctx : r.newContextErr = none)
    (hmatch : ca.captchaMatcher r.action = true)
    (hcfg : ca.captchaConfigs r.action = some cfg) (hzero : cfg.maxFailCount = 0) :
    (∀ (cache : Cache) (form : Values), needCaptcha cfg cache r.action form = true) ∧
    ∃ s1 out, ServeHTTP ca eng r s = some (s1, out) ∧
      (Event.next ∈ out →
        r.Form.Get "CaptchaId" ≠ "" ∧ r.Form.Get "CaptchaCode" ≠ "" ∧
          (eng.VerifyString (r.Form.Get "CaptchaId") (r.Form.Get "CaptchaCode") s.store).1
            = true) ∧
      (r.action ≠ ca.getAction → r.action ≠ ca.showAction →
        ((r.Form.Get "CaptchaId" ≠ "" ∧ r.Form.Get "CaptchaCode" ≠ "" ∧
          (eng.VerifyString (r.Form.Get "CaptchaId") (r.Form.Get "CaptchaCode") s.store).1
            = true) → Event.next ∈ out) ∧
        (Event.next ∉ out → missingCaptcha ∈ out ∨ wrongCaptcha ∈ out)) := by
  refine ⟨fun cache form => by simp [needCaptcha, thresholdCheck, hzero], ?_⟩
  by_cases hget : r.action = ca.getAction
  · exact ⟨_, _, ServeHTTP_get ca eng r s hen hctx hget, by simp, fun h => absurd hget h⟩
  by_cases hshow : r.action = ca.showAction
  · exact ⟨_, _, ServeHTTP_show ca eng r s hen hctx hget hshow,
      fun h => absurd h (next_not_mem_serveShow ca eng r s), fun _ h => absurd hshow h⟩
  · refine ⟨(serveGated cfg eng r s).1, (serveGated cfg eng r s).2,
      ServeHTTP_gated ca eng r s cfg hen hctx hget hshow hmatch hcfg, ?_, ?_⟩
    · unfold serveGated serveNext counterUpdate
      simp only [thresholdCheck, hzero, if_true]
      by_cases hid : r.Form.Get "CaptchaId" = ""
      · simp [hid, missingCaptcha]
      by_cases hcode : r.Form.Get "CaptchaCode" = ""
      · simp [hcode, missingCaptcha]
      cases hv : (eng.VerifyString (r.Form.Get "CaptchaId") (r.Form.Get "CaptchaCode")
        s.store).1 <;> simp [hid, hcode, hv, wrongCaptcha]
    · intro _ _
      unfold serveGated serveNext counterUpdate
      simp only [thresholdCheck, hzero, if_true]
      by_cases hid : r.Form.Get "CaptchaId" = ""
      · simp [hid, missingCaptcha]
      by_cases hcode : r.Form.Get "CaptchaCode" = ""
      · simp [hcode, missingCaptcha]
      cases hv : (eng.VerifyString (r.Form.Get "CaptchaId") (r.Form.Get "CaptchaCode")
        s.store).1 <;> simp [hid, hcode, hv, wrongCaptcha, missingCaptcha]

/-- C8: on a request on which verification is required (enabled component,
action past the issuance/render switch, accepted by the matcher, policy present,
`needCaptcha` true), the handler returns, and the MissingCaptcha rejection is
written if and only if `CaptchaId` or `CaptchaCode` reads as the empty string
(absent or empty); on that rejection tracker and challenge engine are unchanged,
and neither `next`, nor `VerifyString`, nor `Reload`, nor a tracker `Set` is
called. -/
theorem C8_missing_captcha_rejection {σ : Type} (ca : Captcha) (eng : Engine σ)
    (r : Request) (s : State σ) (cfg : CaptchaConfig)
    (hen : ca.disabled = false) (hctx : r.newContextErr = none)
    (hget : r.action ≠ ca.getAction) (hshow : r.action ≠ ca.showAction)
    (hmatch : ca.captchaMatcher r.action = true)
    (hcfg : ca.captchaConfigs r.action = some cfg)
    (hneed : needCaptcha cfg s.captchaCache r.action r.Form = true) :
    errorName errorMissingCaptcha = some "MissingCaptcha" ∧
    ∃ s1 out, ServeHTTP ca eng r s = some (s1, out) ∧
      (missingCaptcha ∈ out ↔
        (r.Form.Get "CaptchaId" = "" ∨ r.Form.Get "CaptchaCode" = "")) ∧
      (missingCaptcha ∈ out →
        s1 = s ∧ Event.next ∉ out ∧ (∀ i c, Event.verifyString i c ∉ out) ∧
          (∀ i, Event.reload i ∉ out) ∧ (∀ k v, Event.cacheSet k v ∉ out)) := by
  refine ⟨by decide, (serveGated cfg eng r s).1, (serveGated cfg eng r s).2,
    ServeHTTP_gated ca eng r s cfg hen hctx hget hshow hmatch hcfg, ?_⟩
  have hT := thresholdCheck_isTracker cfg s.captchaCache r.action r.Form
  have hev := thresholdCheck_events cfg s.captchaCache r.action r.Form
  by_cases hmiss : r.Form.Get "CaptchaId" = "" ∨ r.Form.Get "CaptchaCode" = ""
  · rw [serveGated_missing cfg eng r s hneed hmiss]
    refine ⟨⟨fun _ => hmiss, fun _ => by simp⟩, fun _ => ⟨rfl, ?_, ?_, ?_, ?_⟩⟩
    · simp [not_mem_of_isTracker hT, Event.isTracker, missingCaptcha]
    · intro i c
      simp [not_mem_of_isTracker hT, Event.isTracker, missingCaptcha]
    · intro i
      simp [not_mem_of_isTracker hT, Event.isTracker, missingCaptcha]
    · intro k v
      rw [hev]
      split <;> simp [missingCaptcha]
  · have hid : r.Form.Get "CaptchaId" ≠ "" := fun h => hmiss (Or.inl h)
    have hcode : r.Form.Get "CaptchaCode" ≠ "" := fun h => hmiss (Or.inr h)
    have hnot : missingCaptcha ∉ (serveGated cfg eng r s).2 := by
      cases hv : (eng.VerifyString (r.Form.Get "CaptchaId") (r.Form.Get "CaptchaCode")
        s.store).1
      · rw [serveGated_wrong cfg eng r s hneed hid hcode hv]
        simp [not_mem_of_isTracker hT, Event.isTracker, missingCaptcha, wrongCaptcha,
          errorMissingCaptcha, errorWrongCaptcha]
      · rw [serveGated_verified cfg eng r s hneed hid hcode hv]
        have hU := counterUpdate_isTracker cfg s.captchaCache r.action r.Form
          r.returnDataIsError
        simp [serveNext, not_mem_of_isTracker hT, not_mem_of_isTracker hU, Event.isTracker,
          missingCaptcha]
    exact ⟨⟨fun h => absurd h hnot, fun h => absurd h hmiss⟩, fun h => absurd h hnot⟩

/-- C9: on a request on which verification is required and which carries a
non-empty `CaptchaId` and `CaptchaCode`, the handler returns, and the
WrongCaptcha rejection is written if and only if `VerifyString` returned false;
on that rejection `Reload` was called on that id after the check, `next` is not
called, no tracker `Set` is made and the tracker is unchanged. -/
theorem C9_wrong_captcha_rejection {σ : Type} (ca : Captcha) (eng : Engine σ)
    (r : Request) (s : State σ) (cfg : CaptchaConfig)
    (hen : ca.disabled = false) (hctx : r.newContextErr = none)
    (hget : r.action ≠ ca.getAction) (hshow : r.action ≠ ca.showAction)
    (hmatch : ca.captchaMatcher r.action = true)
    (hcfg : ca.captchaConfigs r.action = some cfg)
    (hneed : needCaptcha cfg s.captchaCache r.action r.Form = true)
    (hid : r.Form.Get "CaptchaId" ≠ "") (hcode : r.Form.Get "CaptchaCode" ≠ "") :
    errorName errorWrongCaptcha = some "WrongCaptcha" ∧
    ∃ s1 out, ServeHTTP ca eng r s = some (s1, out) ∧
      (wrongCaptcha ∈ out ↔
        (eng.VerifyString (r.Form.Get "CaptchaId") (r.Form.Get "CaptchaCode") s.store).1
          = false) ∧
      (wrongCaptcha ∈ out →
        s1.captchaCache = s.captchaCache ∧
        s1.store = (eng.Reload (r.Form.Get "CaptchaId")
          (eng.VerifyString (r.Form.Get "CaptchaId") (r.Form.Get "CaptchaCode")
            s.store).2).2 ∧
        out = (thresholdCheck cfg s.captchaCache r.action r.Form).2 ++
          [Event.verifyString (r.Form.Get "CaptchaId") (r.Form.Get "CaptchaCode"),
            Event.reload (r.Form.Get "CaptchaId"), wrongCaptcha] ∧
        Event.next ∉ out ∧ (∀ k v, Event.cacheSet k v ∉ out)) := by
  refine ⟨by decide, (serveGated cfg eng r s).1, (serveGated cfg eng r s).2,
    ServeHTTP_gated ca eng r s cfg hen hctx hget hshow hmatch hcfg, ?_⟩
  have hT := thresholdCheck_isTracker cfg s.captchaCache r.action r.Form
  have hev := thresholdCheck_events cfg s.captchaCache r.action r.Form
  cases hv : (eng.VerifyString (r.Form.Get "CaptchaId") (r.Form.Get "CaptchaCode")
    s.store).1
  · rw [serveGated_wrong cfg eng r s hneed hid hcode hv]
    refine ⟨⟨fun _ => rfl, fun _ => by simp⟩, fun _ => ⟨rfl, rfl, rfl, ?_, ?_⟩⟩
    · simp [not_mem_of_isTracker hT, Event.isTracker, wrongCaptcha]
    · intro k v
      rw [hev]
      split <;> simp [wrongCaptcha]
  · have hnot : wrongCaptcha ∉ (serveGated cfg eng r s).2 := by
      rw [serveGated_verified cfg eng r s hneed hid hcode hv]
      have hU := counterUpdate_isTracker cfg s.captchaCache r.action r.Form
        r.returnDataIsError
      simp [serveNext, not_mem_of_isTracker hT, not_mem_of_isTracker hU, Event.isTracker,
        wrongCaptcha]
    exact ⟨⟨fun h => absurd h hnot, fun h => by simp at h⟩, fun h => absurd h hnot⟩

/-- Shape of the events of a request on which `VerifyString` was called: tracker
calls, then the check and the `Reload` of the same id, then either the
WrongCaptcha rejection alone or `next` followed by tracker calls. -/
theorem verify_then_reload {σ : Type} (ca : Captcha) (eng : Engine σ) (r : Request)
    (s s1 : State σ) (out : List Event) (h : ServeHTTP ca eng r s = some (s1, out))
    (id code : String) (hmem : Event.verifyString id code ∈ out) :
    id = r.Form.Get "CaptchaId" ∧ code = r.Form.Get "CaptchaCode" ∧
    s1.store = (eng.Reload id (eng.VerifyString id code s.store).2).2 ∧
    ∃ pre post, out = pre ++ [Event.verifyString id code, Event.reload id] ++ post ∧
      (∀ e ∈ pre, e.isTracker = true) ∧
      (if (eng.VerifyString id code s.store).1 = true
        then ∃ upd, post = Event.next :: upd ∧ ∀ e ∈ upd, e.isTracker = true
        else post = [wrongCaptcha]) := by
  unfold ServeHTTP at h
  split at h
  · simp only [Option.some.injEq, Prod.mk.injEq] at h
    rw [← h.2] at hmem
    simp at hmem
  split at h
  · simp only [Option.some.injEq, Prod.mk.injEq] at h
    rw [← h.2] at hmem
    simp at hmem
  split at h
  · simp only [Option.some.injEq, Prod.mk.injEq] at h
    rw [← h.2] at hmem
    simp at hmem
  split at h
  · simp only [Option.some.injEq] at h
    exfalso
    have hout : out = (serveShow ca eng r s).2 := by rw [h]
    rw [hout] at hmem
    revert hmem
    unfold serveShow
    dsimp only
    split
    · simp
    · split <;> split <;> simp
  split at h
  · simp only [Option.some.injEq, Prod.mk.injEq] at h
    rw [← h.2] at hmem
    simp at hmem
  split at h
  · exact absurd h (by simp)
  rename_i cfg hcfg
  simp only [Option.some.injEq] at h
  have hT := thresholdCheck_isTracker cfg s.captchaCache r.action r.Form
  have hU := counterUpdate_isTracker cfg s.captchaCache r.action r.Form r.returnDataIsError
  cases hneed : needCaptcha cfg s.captchaCache r.action r.Form
  · rw [serveGated_free cfg eng r s hneed] at h
    simp only [serveNext, Prod.mk.injEq] at h
    rw [← h.2] at hmem
    simp [not_mem_of_isTracker hT, not_mem_of_isTracker hU, Event.isTracker] at hmem
  by_cases hmiss : r.Form.Get "CaptchaId" = "" ∨ r.Form.Get "CaptchaCode" = ""
  · rw [serveGated_missing cfg eng r s hneed hmiss] at h
    simp only [Prod.mk.injEq] at h
    rw [← h.2] at hmem
    simp [not_mem_of_isTracker hT, Event.isTracker, missingCaptcha] at hmem
  have hid : r.Form.Get "CaptchaId" ≠ "" := fun h => hmiss (Or.inl h)
  have hcode : r.Form.Get "CaptchaCode" ≠ "" := fun h => hmiss (Or.inr h)
  cases hv : (eng.VerifyString (r.Form.Get "CaptchaId") (r.Form.Get "CaptchaCode") s.store).1
  · rw [serveGated_wrong cfg eng r s hneed hid hcode hv] at h
    simp only [Prod.mk.injEq] at h
    obtain ⟨hs, hout⟩ := h
    rw [← hout] at hmem
    simp [not_mem_of_isTracker hT, Event.isTracker, wrongCaptcha] at hmem
    obtain ⟨rfl, rfl⟩ := hmem
    refine ⟨rfl, rfl, by rw [← hs], _, [wrongCaptcha], ?_, hT, by simp [hv]⟩
    rw [← hout]
    simp
  · rw [serveGated_verified cfg eng r s hneed hid hcode hv] at h
    simp only [serveNext, Prod.mk.injEq] at h
    obtain ⟨hs, hout⟩ := h
    rw [← hout] at hmem
    simp [not_mem_of_isTracker hT, not_mem_of_isTracker hU, Event.isTracker] at hmem
    obtain ⟨rfl, rfl⟩ := hmem
    refine ⟨rfl, rfl, by rw [← hs], _, Event.next ::
      (counterUpdate cfg s.captchaCache r.action r.Form r.returnDataIsError).2, ?_, hT, ?_⟩
    · rw [← hout]
      simp
    · simp only [hv, if_true]
      exact ⟨_, rfl, hU⟩

/-- Expected answer of a challenge of the specification store after a check and
the `Reload` that follows it: the rotated answer. -/
theorem specEngine_reload_after_verify (g : Generator) (st : ChallengeStore) (id code ans : String)
    (hans : st.expected id = some ans) :
    (((specEngine g).Reload id ((specEngine g).VerifyString id code st).2).2).expected id
      = some (g.rotate ans) := by
  simp [specEngine, hans]

/-- C5: whenever `ServeHTTP` returns and called `VerifyString(id, code)`, its
events are tracker calls, then the check, then `Reload(id)` on the same id, then
either `next` followed by tracker calls (check accepted) or the WrongCaptcha
rejection alone (check refused); `Reload(id)` occurs exactly once.  Hence, over
the challenge store of the specification with a `Reload` that replaces the
expected answer by a different one, a later request on which verification is
required and which repeats the id with the answer that was correct before is
rejected and never reaches `next`. -/
theorem C5_reload_after_every_verification :
    (∀ (σ : Type) (ca : Captcha) (eng : Engine σ) (r : Request) (s s1 : State σ)
        (out : List Event) (id code : String),
      ServeHTTP ca eng r s = some (s1, out) → Event.verifyString id code ∈ out →
      out.count (Event.reload id) = 1 ∧
      ∃ pre post, out = pre ++ [Event.verifyString id code, Event.reload id] ++ post ∧
        (∀ e ∈ pre, e.isTracker = true) ∧
        (if (eng.VerifyString id code s.store).1 = true
          then ∃ upd, post = Event.next :: upd ∧ ∀ e ∈ upd, e.isTracker = true
          else post = [wrongCaptcha])) ∧
    (∀ (g : Generator) (ca : Captcha) (r1 r2 : Request) (s s1 : State ChallengeStore)
        (out1 : List Event) (cfg : CaptchaConfig) (id code ans : String),
      (∀ a, g.rotate a ≠ a) →
      ServeHTTP ca (specEngine g) r1 s = some (s1, out1) →
      Event.verifyString id code ∈ out1 →
      s.store.expected id = some ans →
      ca.disabled = false → r2.newContextErr = none →
      r2.action ≠ ca.getAction → r2.action ≠ ca.showAction →
      ca.captchaMatcher r2.action = true → ca.captchaConfigs r2.action = some cfg →
      needCaptcha cfg s1.captchaCache r2.action r2.Form = true →
      r2.Form.Get "CaptchaId" = id → r2.Form.Get "CaptchaCode" = ans →
      ∃ s2 out2, ServeHTTP ca (specEngine g) r2 s1 = some (s2, out2) ∧
        Event.next ∉ out2 ∧ (missingCaptcha ∈ out2 ∨ wrongCaptcha ∈ out2) ∧
        (id ≠ "" → ans ≠ "" → wrongCaptcha ∈ out2)) := by
  constructor
  · intro σ ca eng r s s1 out id code h hmem
    obtain ⟨-, -, -, pre, post, hout, hpre, hpost⟩ :=
      verify_then_reload ca eng r s s1 out h id code hmem
    refine ⟨?_, pre, post, hout, hpre, hpost⟩
    have hc1 : pre.count (Event.reload id) = 0 :=
      List.count_eq_zero.mpr (not_mem_of_isTracker hpre rfl)
    have hc2 : post.count (Event.reload id) = 0 := by
      split at hpost
      · obtain ⟨upd, rfl, hupd⟩ := hpost
        have := List.count_eq_zero.mpr (not_mem_of_isTracker hupd (e := Event.reload id) rfl)
        simp [List.count_cons, this]
      · subst hpost
        simp [List.count_cons, wrongCaptcha]
    rw [hout]
    simp [List.count_append, List.count_cons, hc1, hc2]
  · intro g ca r1 r2 s s1 out1 cfg id code ans hrot h1 hmem hans hen hctx hget hshow hmatch
      hcfg hneed hid hcode
    obtain ⟨-, -, hstore, -⟩ := verify_then_reload ca (specEngine g) r1 s s1 out1 h1 id code hmem
    have hexp : s1.store.expected id = some (g.rotate ans) := by
      rw [hstore]
      exact specEngine_reload_after_verify g s.store id code ans hans
    have hT := thresholdCheck_isTracker cfg s1.captchaCache r2.action r2.Form
    refine ⟨(serveGated cfg (specEngine g) r2 s1).1, (serveGated cfg (specEngine g) r2 s1).2,
      ServeHTTP_gated ca (specEngine g) r2 s1 cfg hen hctx hget hshow hmatch hcfg, ?_⟩
    by_cases hmiss : r2.Form.Get "CaptchaId" = "" ∨ r2.Form.Get "CaptchaCode" = ""
    · rw [serveGated_missing cfg (specEngine g) r2 s1 hneed hmiss]
      refine ⟨?_, Or.inl (by simp), ?_⟩
      · simp [not_mem_of_isTracker hT, Event.isTracker, missingCaptcha]
      · intro h1 h2
        rw [hid, hcode] at hmiss
        rcases hmiss with h | h
        · exact absurd h h1
        · exact absurd h h2
    · have hid2 : r2.Form.Get "CaptchaId" ≠ "" := fun h => hmiss (Or.inl h)
      have hcode2 : r2.Form.Get "CaptchaCode" ≠ "" := fun h => hmiss (Or.inr h)
      have hv : ((specEngine g).VerifyString (r2.Form.Get "CaptchaId")
          (r2.Form.Get "CaptchaCode") s1.store).1 = false := by
        rw [hid, hcode]
        simp [specEngine, hexp, hrot ans]
      rw [serveGated_wrong cfg (specEngine g) r2 s1 hneed hid2 hcode2 hv]
      refine ⟨?_, Or.inr (by simp), fun _ _ => by simp⟩
      simp [not_mem_of_isTracker hT, Event.isTracker, wrongCaptcha]

theorem wrapInt_of_range {x : Int} (hlo : minInt ≤ x) (hhi : x ≤ maxInt) : wrapInt x = x := by
  unfold wrapInt
  unfold minInt at hlo
  unfold maxInt at hhi
  norm_num at hlo hhi ⊢
  omega

theorem counterUpdate_Get_key (cfg : CaptchaConfig) (cache : Cache) (action : String)
    (form : Values) (isError : Bool) (hpos : cfg.maxFailCount > 0) :
    (counterUpdate cfg cache action form isError).1.Get (cacheKey action (form.Get cfg.identifier))
      = if isError then
          some (match cache.Get (cacheKey action (form.Get cfg.identifier)) with
            | none => 1
            | some c => wrapInt (c + 1))
        else (cache.Get (cacheKey action (form.Get cfg.identifier))).map fun _ => 0 := by
  unfold counterUpdate
  simp only [hpos, if_true]
  cases isError
  · simp only [Bool.false_eq_true, if_false]
    cases hg : cache.Get (cacheKey action (form.Get cfg.identifier)) with
    | none =>
      have : cache.Has (cacheKey action (form.Get cfg.identifier)) = false := by
        simp only [Cache.Get] at hg
        simp [Cache.Has, hg]
      simp [this, hg]
    | some c =>
      have : cache.Has (cacheKey action (form.Get cfg.identifier)) = true := by
        simp only [Cache.Get] at hg
        simp [Cache.Has, hg]
      simp [this, Cache.Get_Set_self]
  · simp only [if_true]
    cases hg : cache.Get (cacheKey action (form.Get cfg.identifier)) <;>
      simp [Cache.Get_Set_self]

theorem counterUpdate_Get_other (cfg : CaptchaConfig) (cache : Cache) (action : String)
    (form : Values) (isError : Bool) (k : String)
    (hk : k ≠ cacheKey action (form.Get cfg.identifier)) :
    (counterUpdate cfg cache action form isError).1.Get k = cache.Get k := by
  unfold counterUpdate
  split
  · dsimp only
    split
    · split <;> simp [Cache.Get_Set_of_ne _ _ hk]
    · split <;> simp [Cache.Get_Set_of_ne _ _ hk]
  · rfl

theorem counterUpdate_of_not_pos (cfg : CaptchaConfig) (cache : Cache) (action : String)
    (form : Values) (isError : Bool) (h : ¬ cfg.maxFailCount > 0) :
    counterUpdate cfg cache action form isError = (cache, []) := by
  simp [counterUpdate, h]

/-- Tracker after a request on the gated path: updated from the downstream
outcome when `next` ran, untouched when the request was rejected. -/
theorem serveGated_cache {σ : Type} (cfg : CaptchaConfig) (eng : Engine σ) (r : Request)
    (s : State σ) :
    (serveGated cfg eng r s).1.captchaCache =
      if Event.next ∈ (serveGated cfg eng r s).2
      then (counterUpdate cfg s.captchaCache r.action r.Form r.returnDataIsError).1
      else s.captchaCache := by
  have hT := thresholdCheck_isTracker cfg s.captchaCache r.action r.Form
  cases hneed : needCaptcha cfg s.captchaCache r.action r.Form
  · rw [serveGated_free cfg eng r s hneed]
    simp [serveNext]
  by_cases hmiss : r.Form.Get "CaptchaId" = "" ∨ r.Form.Get "CaptchaCode" = ""
  · rw [serveGated_missing cfg eng r s hneed hmiss]
    simp [not_mem_of_isTracker hT, Event.isTracker, missingCaptcha]
  have hid : r.Form.Get "CaptchaId" ≠ "" := fun h => hmiss (Or.inl h)
  have hcode : r.Form.Get "CaptchaCode" ≠ "" := fun h => hmiss (Or.inr h)
  cases hv : (eng.VerifyString (r.Form.Get "CaptchaId") (r.Form.Get "CaptchaCode") s.store).1
  · rw [serveGated_wrong cfg eng r s hneed hid hcode hv]
    simp [not_mem_of_isTracker hT, Event.isTracker, wrongCaptcha]
  · rw [serveGated_verified cfg eng r s hneed hid hcode hv]
    simp [serveNext]

/-- C7 (amended): on a request to a gated action with `maxFailCount > 0` that
reaches `next`, with `key` the tracker key of the action and the identifier
value: after a downstream failure the count under `key` is 1 when there was no
entry, and the old count plus 1 when there was one and the old count is a Go
`int` below the largest; after a downstream success an existing entry holds 0
and an absent entry stays absent; the entries under all other keys are
unchanged. -/
theorem C7_counter_update {σ : Type} (ca : Captcha) (eng : Engine σ)
    (r : Request) (s s1 : State σ) (out : List Event) (cfg : CaptchaConfig)
    (hen : ca.disabled = false) (hctx : r.newContextErr = none)
    (hget : r.action ≠ ca.getAction) (hshow : r.action ≠ ca.showAction)
    (hmatch : ca.captchaMatcher r.action = true)
    (hcfg : ca.captchaConfigs r.action = some cfg) (hpos : cfg.maxFailCount > 0)
    (hserve : ServeHTTP ca eng r s = some (s1, out)) (hnext : Event.next ∈ out) :
    (r.returnDataIsError = true →
      (s.captchaCache.Get (cacheKey r.action (r.Form.Get cfg.identifier)) = none →
        s1.captchaCache.Get (cacheKey r.action (r.Form.Get cfg.identifier)) = some 1) ∧
      (∀ c, s.captchaCache.Get (cacheKey r.action (r.Form.Get cfg.identifier)) = some c →
        minInt ≤ c → c < maxInt →
        s1.captchaCache.Get (cacheKey r.action (r.Form.Get cfg.identifier)) = some (c + 1))) ∧
    (r.returnDataIsError = false →
      (∀ c, s.captchaCache.Get (cacheKey r.action (r.Form.Get cfg.identifier)) = some c →
        s1.captchaCache.Get (cacheKey r.action (r.Form.Get cfg.identifier)) = some 0) ∧
      (s.captchaCache.Get (cacheKey r.action (r.Form.Get cfg.identifier)) = none →
        s1.captchaCache.Get (cacheKey r.action (r.Form.Get cfg.identifier)) = none)) ∧
    (∀ k, k ≠ cacheKey r.action (r.Form.Get cfg.identifier) →
      s1.captchaCache.Get k = s.captchaCache.Get k) := by
  rw [ServeHTTP_gated ca eng r s cfg hen hctx hget hshow hmatch hcfg] at hserve
  simp only [Option.some.injEq] at hserve
  have hc := serveGated_cache cfg eng r s
  rw [hserve] at hc
  simp only [hnext, if_true] at hc
  rw [hc]
  have hkey := counterUpdate_Get_key cfg s.captchaCache r.action r.Form r.returnDataIsError hpos
  refine ⟨fun he => ⟨fun hnone => ?_, fun c hsome hlo hhi => ?_⟩,
    fun he => ⟨fun c hsome => ?_, fun hnone => ?_⟩,
    fun k hk => counterUpdate_Get_other cfg s.captchaCache r.action r.Form _ k hk⟩
  · rw [hkey, he, hnone]; rfl
  · rw [hkey, he, hsome]
    simp only [if_true]
    rw [wrapInt_of_range (by omega) (by omega)]
  · rw [hkey, he, hsome]; rfl
  · rw [hkey, he, hnone]; rfl

/-- One failing request below the threshold: it is let through unverified and
the count goes up by one. -/
theorem ServeHTTP_failure_below {σ : Type} (ca : Captcha) (eng : Engine σ) (cfg : CaptchaConfig)
    (r : Request) (s : State σ) (j : Int)
    (hen : ca.disabled = false) (hctx : r.newContextErr = none)
    (hget : r.action ≠ ca.getAction) (hshow : r.action ≠ ca.showAction)
    (hmatch : ca.captchaMatcher r.action = true)
    (hcfg : ca.captchaConfigs r.action = some cfg) (hpos : cfg.maxFailCount > 0)
    (herr : r.returnDataIsError = true)
    (hstart : s.captchaCache.Get (cacheKey r.action (r.Form.Get cfg.identifier)) = none ∧ j = 0 ∨
      s.captchaCache.Get (cacheKey r.action (r.Form.Get cfg.identifier)) = some j ∧ 0 ≤ j)
    (hj : j ≤ cfg.maxFailCount) (hk : j < maxInt) :
    ServeHTTP ca eng r s =
      some (⟨s.captchaCache.Set (cacheKey r.action (r.Form.Get cfg.identifier)) (j + 1), s.store⟩,
        failureEvents (cacheKey r.action (r.Form.Get cfg.identifier)) (j + 1)) := by
  rw [ServeHTTP_gated ca eng r s cfg hen hctx hget hshow hmatch hcfg]
  have hne : cfg.maxFailCount ≠ 0 := by omega
  have hneed : needCaptcha cfg s.captchaCache r.action r.Form = false := by
    rw [needCaptcha_eq]
    rcases hstart with ⟨h, -⟩ | ⟨h, -⟩
    · simp [h, hne]
    · simp [h, hne]
      omega
  rw [serveGated_free cfg eng r s hneed, thresholdCheck_events]
  simp only [serveNext, counterUpdate, hne, if_false, hpos, if_true, herr]
  rcases hstart with ⟨h, rfl⟩ | ⟨h, h0⟩
  · simp [h, failureEvents]
  · have hw : wrapInt (j + 1) = j + 1 := by
      apply wrapInt_of_range
      · unfold minInt; omega
      · omega
    simp [h, hw, failureEvents]

/-- A run of failing requests for one key that stays within the threshold: each
request is let through unverified, the count goes up one by one, the challenge
engine and the other keys are untouched. -/
theorem serveAll_failures {σ : Type} (ca : Captcha) (eng : Engine σ) (cfg : CaptchaConfig)
    (a v : String) (hen : ca.disabled = false)
    (hget : a ≠ ca.getAction) (hshow : a ≠ ca.showAction)
    (hmatch : ca.captchaMatcher a = true)
    (hcfg : ca.captchaConfigs a = some cfg) (hpos : cfg.maxFailCount > 0)
    (hk : cfg.maxFailCount < maxInt) :
    ∀ (rs : List Request) (s : State σ) (j : Int),
      (∀ r ∈ rs, r.newContextErr = none ∧ r.action = a ∧ r.Form.Get cfg.identifier = v ∧
        r.returnDataIsError = true) →
      (s.captchaCache.Get (cacheKey a v) = none ∧ j = 0 ∨
        s.captchaCache.Get (cacheKey a v) = some j ∧ 0 ≤ j) →
      j + rs.length ≤ cfg.maxFailCount + 1 →
      ∃ s1, serveAll ca eng rs s =
          some (s1, (List.range rs.length).map
            fun (i : Nat) => failureEvents (cacheKey a v) (j + (i : Int) + 1)) ∧
        s1.store = s.store ∧
        (rs ≠ [] → s1.captchaCache.Get (cacheKey a v) = some (j + rs.length)) ∧
        (rs = [] → s1 = s) ∧
        (∀ k, k ≠ cacheKey a v → s1.captchaCache.Get k = s.captchaCache.Get k) := by
  intro rs
  induction rs with
  | nil =>
    intro s j _ _ _
    exact ⟨s, by simp [serveAll], rfl, fun h => absurd rfl h, fun _ => rfl, fun _ _ => rfl⟩
  | cons r rs ih =>
    intro s j hrs hstart hlen
    obtain ⟨hctx, hact, hidv, herr⟩ := hrs r (List.mem_cons_self _ _)
    simp only [List.length_cons, Nat.cast_add, Nat.cast_one] at hlen
    have hj : j ≤ cfg.maxFailCount := by omega
    have hj0 : 0 ≤ j := by
      rcases hstart with ⟨-, h⟩ | ⟨-, h⟩ <;> omega
    have hstep := ServeHTTP_failure_below ca eng cfg r s j hen hctx (hact ▸ hget) (hact ▸ hshow)
      (hact ▸ hmatch) (hact ▸ hcfg) hpos herr (by rw [hact, hidv]; exact hstart) hj
      (by omega)
    rw [hact, hidv] at hstep
    obtain ⟨s1, hrun, hstore, hcount, -, hother⟩ :=
      ih ⟨s.captchaCache.Set (cacheKey a v) (j + 1), s.store⟩ (j + 1)
        (fun r' hr' => hrs r' (List.mem_cons_of_mem _ hr'))
        (Or.inr ⟨Cache.Get_Set_self _ _ _, by omega⟩) (by omega)
    refine ⟨s1, ?_, hstore, fun _ => ?_, fun h => absurd h (List.cons_ne_nil _ _), fun k hk => ?_⟩
    · simp only [serveAll, hstep, hrun, List.length_cons, List.range_succ_eq_map, List.map_cons,
        List.map_map]
      congr 3
      · simp
      · apply List.map_congr_left
        intro i _
        simp only [Function.comp, Nat.cast_succ]
        congr 1
        omega
    · by_cases hnil : rs = []
      · subst hnil
        have hs1 : s1 = ⟨s.captchaCache.Set (cacheKey a v) (j + 1), s.store⟩ := by
          simpa [serveAll] using hrun.symm
        rw [hs1]
        simp [Cache.Get_Set_self]
      · rw [hcount hnil]
        simp only [List.length_cons, Nat.cast_add, Nat.cast_one]
        congr 1
        omega
    · rw [hother k hk]
      exact Cache.Get_Set_of_ne _ _ hk

theorem cacheKey_injective_right (a v w : String) (h : cacheKey a v = cacheKey a w) : v = w := by
  unfold cacheKey at h
  have h2 := congrArg String.data h
  simp only [String.data_append, List.append_assoc, List.append_cancel_left_eq] at h2
  exact String.ext h2

/-- A request that finds a count above the threshold and carries no captcha
fields is rejected with MissingCaptcha after the one tracker read. -/
theorem ServeHTTP_missing_above {σ : Type} (ca : Captcha) (eng : Engine σ) (cfg : CaptchaConfig)
    (r : Request) (s : State σ) (c : Int)
    (hen : ca.disabled = false) (hctx : r.newContextErr = none)
    (hget : r.action ≠ ca.getAction) (hshow : r.action ≠ ca.showAction)
    (hmatch : ca.captchaMatcher r.action = true)
    (hcfg : ca.captchaConfigs r.action = some cfg) (hpos : cfg.maxFailCount > 0)
    (hcount : s.captchaCache.Get (cacheKey r.action (r.Form.Get cfg.identifier)) = some c)
    (hgt : c > cfg.maxFailCount) :
    needCaptcha cfg s.captchaCache r.action r.Form = true ∧
    ((r.Form.Get "CaptchaId" = "" ∨ r.Form.Get "CaptchaCode" = "") →
      ServeHTTP ca eng r s =
        some (s, [Event.cacheGet (cacheKey r.action (r.Form.Get cfg.identifier)),
          missingCaptcha])) := by
  have hne : cfg.maxFailCount ≠ 0 := by omega
  have hneed : needCaptcha cfg s.captchaCache r.action r.Form = true := by
    rw [needCaptcha_eq]
    simp [hcount, hgt]
  refine ⟨hneed, fun hmiss => ?_⟩
  rw [ServeHTTP_gated ca eng r s cfg hen hctx hget hshow hmatch hcfg,
    serveGated_missing cfg eng r s hneed hmiss, thresholdCheck_events]
  simp [hne]

/-- C1 (amended): for a gated action with `maxFailCount = k`, `0 < k` and `k`
below the largest Go `int`, and an identifier value whose key has no entry:
`k + 1` consecutive requests with that identifier whose downstream outcome is a
failure are all let through unverified (after any `n ≤ k` of them `needCaptcha`
is still false for the next request), they leave the count at `k + 1`, and the
request number `k + 2` with that identifier requires verification: it is
rejected with MissingCaptcha when it carries no `CaptchaId` or `CaptchaCode`. -/
theorem C1_gating_starts_after_threshold_exceeded {σ : Type} (ca : Captcha) (eng : Engine σ)
    (cfg : CaptchaConfig) (a v : String) (rs : List Request) (s : State σ)
    (hen : ca.disabled = false)
    (hget : a ≠ ca.getAction) (hshow : a ≠ ca.showAction)
    (hmatch : ca.captchaMatcher a = true)
    (hcfg : ca.captchaConfigs a = some cfg) (hpos : cfg.maxFailCount > 0)
    (hk : cfg.maxFailCount < maxInt)
    (hrs : ∀ r ∈ rs, r.newContextErr = none ∧ r.action = a ∧ r.Form.Get cfg.identifier = v ∧
      r.returnDataIsError = true)
    (hlen : (rs.length : Int) = cfg.maxFailCount + 1)
    (hempty : s.captchaCache.Get (cacheKey a v) = none) :
    (∀ n : Nat, (n : Int) ≤ cfg.maxFailCount →
      ∃ sn outs, serveAll ca eng (rs.take n) s = some (sn, outs) ∧
        ∀ r : Request, r.action = a → r.Form.Get cfg.identifier = v →
          needCaptcha cfg sn.captchaCache r.action r.Form = false) ∧
    ∃ s1, serveAll ca eng rs s =
        some (s1, (List.range rs.length).map
          fun (i : Nat) => failureEvents (cacheKey a v) ((i : Int) + 1)) ∧
      s1.captchaCache.Get (cacheKey a v) = some (cfg.maxFailCount + 1) ∧
      ∀ r : Request, r.newContextErr = none → r.action = a → r.Form.Get cfg.identifier = v →
        needCaptcha cfg s1.captchaCache r.action r.Form = true ∧
        ((r.Form.Get "CaptchaId" = "" ∨ r.Form.Get "CaptchaCode" = "") →
          ServeHTTP ca eng r s1 = some (s1, [Event.cacheGet (cacheKey a v), missingCaptcha])) := by
  have hne : cfg.maxFailCount ≠ 0 := by omega
  constructor
  · intro n hn
    have hlt : n ≤ rs.length := by omega
    obtain ⟨sn, hrun, -, hcount, hnil, -⟩ :=
      serveAll_failures ca eng cfg a v hen hget hshow hmatch hcfg hpos hk (rs.take n) s 0
        (fun r hr => hrs r (List.mem_of_mem_take hr)) (Or.inl ⟨hempty, rfl⟩)
        (by rw [List.length_take, Nat.min_eq_left hlt]; omega)
    refine ⟨sn, _, hrun, fun r hact hidv => ?_⟩
    rw [needCaptcha_eq, hact, hidv]
    by_cases hz : rs.take n = []
    · rw [hnil hz, hempty]
      simp [hne]
    · rw [hcount hz, List.length_take, Nat.min_eq_left hlt]
      simp [hne]
      omega
  · obtain ⟨s1, hrun, -, hcount, -, -⟩ :=
      serveAll_failures ca eng cfg a v hen hget hshow hmatch hcfg hpos hk rs s 0 hrs
        (Or.inl ⟨hempty, rfl⟩) (by omega)
    have hnil : rs ≠ [] := by
      intro h
      rw [h] at hlen
      simp at hlen
      omega
    have hc : s1.captchaCache.Get (cacheKey a v) = some (cfg.maxFailCount + 1) := by
      rw [hcount hnil, hlen]
      simp
    refine ⟨s1, ?_, hc, fun r hctx hact hidv => ?_⟩
    · rw [hrun]
      simp
    · have := ServeHTTP_missing_above ca eng cfg r s1 (cfg.maxFailCount + 1) hen hctx
        (hact ▸ hget) (hact ▸ hshow) (hact ▸ hmatch) (hact ▸ hcfg) hpos
        (by rw [hact, hidv]; exact hc) (by omega)
      rw [hact, hidv] at this
      rw [hact]
      exact this

/-- C1, as stated, fails: with `maxFailCount = 1` on "Pay" and no entry for
alice, after exactly 1 failing request `needCaptcha` is false for the 2nd
request, which carries no captcha fields and is let through to `next` instead
of being rejected with MissingCaptcha. -/
theorem C1_counterexample :
    sampleGate.captchaConfigs "Pay" = some ⟨"User", 1⟩ ∧
    sampleState.captchaCache.Get (cacheKey "Pay" "alice") = none ∧
    (serveAll sampleGate (specEngine sampleGenerator)
        [mkRequest "Pay" [("User", "alice")] true] sampleState).map
      (fun p => needCaptcha ⟨"User", 1⟩ p.1.captchaCache "Pay"
        (mkRequest "Pay" [("User", "alice")] true).Form) = some false ∧
    (serveAll sampleGate (specEngine sampleGenerator)
        [mkRequest "Pay" [("User", "alice")] true, mkRequest "Pay" [("User", "alice")] true]
        sampleState).map (fun p => p.2) =
      some [[Event.cacheGet "Pay|alice", Event.next, Event.cacheGet "Pay|alice",
              Event.cacheSet "Pay|alice" 1],
            [Event.cacheGet "Pay|alice", Event.next, Event.cacheGet "Pay|alice",
              Event.cacheSet "Pay|alice" 2]] := by
  decide

/-- Instance of C1 (amended) on the sample component: "Pay" has threshold 1,
two failing requests of alice. -/
theorem C1_gating_starts_after_threshold_exceeded_witness :
    (∀ n : Nat, (n : Int) ≤ 1 →
      ∃ sn outs, serveAll sampleGate (specEngine sampleGenerator)
          ([mkRequest "Pay" [("User", "alice")] true,
            mkRequest "Pay" [("User", "alice")] true].take n) sampleState = some (sn, outs) ∧
        ∀ r : Request, r.action = "Pay" → r.Form.Get "User" = "alice" →
          needCaptcha ⟨"User", 1⟩ sn.captchaCache r.action r.Form = false) ∧
    ∃ s1, serveAll sampleGate (specEngine sampleGenerator)
        [mkRequest "Pay" [("User", "alice")] true, mkRequest "Pay" [("User", "alice")] true]
        sampleState =
        some (s1, (List.range 2).map
          fun (i : Nat) => failureEvents (cacheKey "Pay" "alice") ((i : Int) + 1)) ∧
      s1.captchaCache.Get (cacheKey "Pay" "alice") = some (1 + 1) ∧
      ∀ r : Request, r.newContextErr = none → r.action = "Pay" → r.Form.Get "User" = "alice" →
        needCaptcha ⟨"User", 1⟩ s1.captchaCache r.action r.Form = true ∧
        ((r.Form.Get "CaptchaId" = "" ∨ r.Form.Get "CaptchaCode" = "") →
          ServeHTTP sampleGate (specEngine sampleGenerator) r s1 =
            some (s1, [Event.cacheGet (cacheKey "Pay" "alice"), missingCaptcha])) :=
  C1_gating_starts_after_threshold_exceeded sampleGate (specEngine sampleGenerator)
    ⟨"User", 1⟩ "Pay" "alice"
    [mkRequest "Pay" [("User", "alice")] true, mkRequest "Pay" [("User", "alice")] true]
    sampleState rfl (by decide) (by decide) (by decide) (by decide) (by decide) (by decide)
    (by decide) (by decide) (by decide)

/-- C2: with the policy `identifier = "User"`, `maxFailCount = 2` on a gated
action and a tracker without entries, three consecutive requests with
`User=alice` whose downstream outcome is a failure are let through unverified
and leave the count of the key of alice at 3; for a 4th request with
`User=alice`, `needCaptcha` is true (without captcha fields it is rejected with
MissingCaptcha), for a 4th request with `User=bob` it is false and the request
reaches `next`. -/
theorem C2_three_failures_scenario {σ : Type} (ca : Captcha) (eng : Engine σ) (a : String)
    (r1 r2 r3 : Request) (st : σ)
    (hen : ca.disabled = false)
    (hget : a ≠ ca.getAction) (hshow : a ≠ ca.showAction)
    (hmatch : ca.captchaMatcher a = true)
    (hcfg : ca.captchaConfigs a = some ⟨"User", 2⟩)
    (hrs : ∀ r ∈ [r1, r2, r3], r.newContextErr = none ∧ r.action = a ∧
      r.Form.Get "User" = "alice" ∧ r.returnDataIsError = true) :
    ∃ s3, serveAll ca eng [r1, r2, r3] ⟨NewCacheEx, st⟩ =
        some (s3, [failureEvents (cacheKey a "alice") 1, failureEvents (cacheKey a "alice") 2,
          failureEvents (cacheKey a "alice") 3]) ∧
      s3.captchaCache.Get (cacheKey a "alice") = some 3 ∧
      (∀ r4 : Request, r4.newContextErr = none → r4.action = a → r4.Form.Get "User" = "alice" →
        needCaptcha ⟨"User", 2⟩ s3.captchaCache r4.action r4.Form = true ∧
        ((r4.Form.Get "CaptchaId" = "" ∨ r4.Form.Get "CaptchaCode" = "") →
          ServeHTTP ca eng r4 s3 =
            some (s3, [Event.cacheGet (cacheKey a "alice"), missingCaptcha]))) ∧
      (∀ r4 : Request, r4.newContextErr = none → r4.action = a → r4.Form.Get "User" = "bob" →
        needCaptcha ⟨"User", 2⟩ s3.captchaCache r4.action r4.Form = false ∧
        ∃ s4 upd, ServeHTTP ca eng r4 s3 =
          some (s4, [Event.cacheGet (cacheKey a "bob"), Event.next] ++ upd) ∧
          ∀ e ∈ upd, e.isTracker = true) := by
  obtain ⟨s3, hrun, -, hcount, -, hother⟩ :=
    serveAll_failures ca eng ⟨"User", 2⟩ a "alice" hen hget hshow hmatch hcfg (by decide)
      (by decide) [r1, r2, r3] ⟨NewCacheEx, st⟩ 0 hrs (Or.inl ⟨rfl, rfl⟩) (by simp)
  have hc : s3.captchaCache.Get (cacheKey a "alice") = some 3 := by
    rw [hcount (by simp)]
    rfl
  refine ⟨s3, ?_, hc, fun r4 hctx hact hidv => ?_, fun r4 hctx hact hidv => ?_⟩
  · rw [hrun]
    simp [List.range_succ]
  · have := ServeHTTP_missing_above ca eng ⟨"User", 2⟩ r4 s3 3 hen hctx
      (hact ▸ hget) (hact ▸ hshow) (hact ▸ hmatch) (hact ▸ hcfg) (by decide)
      (by rw [hact, hidv]; exact hc) (by decide)
    rw [hact, hidv] at this
    rw [hact]
    exact this
  · have hne : cacheKey a "bob" ≠ cacheKey a "alice" := fun h =>
      absurd (cacheKey_injective_right a "bob" "alice" h) (by decide)
    have hb : s3.captchaCache.Get (cacheKey a "bob") = none := by
      rw [hother _ hne]
      rfl
    have hneed : needCaptcha ⟨"User", 2⟩ s3.captchaCache r4.action r4.Form = false := by
      rw [needCaptcha_eq]
      simp only [hact, hidv, hb]
      decide
    refine ⟨hneed, (serveGated ⟨"User", 2⟩ eng r4 s3).1,
      (counterUpdate ⟨"User", 2⟩ s3.captchaCache r4.action r4.Form r4.returnDataIsError).2, ?_,
      counterUpdate_isTracker _ _ _ _ _⟩
    rw [ServeHTTP_gated ca eng r4 s3 ⟨"User", 2⟩ hen hctx (hact ▸ hget) (hact ▸ hshow)
      (hact ▸ hmatch) (hact ▸ hcfg), serveGated_free _ eng r4 s3 hneed, thresholdCheck_events]
    simp [serveNext, hact, hidv]

/-- Instance of C2 on the sample component and its action "Login". -/
theorem C2_three_failures_scenario_witness :
    ∃ s3, serveAll sampleGate (specEngine sampleGenerator)
        [mkRequest "Login" [("User", "alice")] true, mkRequest "Login" [("User", "alice")] true,
          mkRequest "Login" [("User", "alice")] true] ⟨NewCacheEx, sampleStore⟩ =
        some (s3, [failureEvents (cacheKey "Login" "alice") 1,
          failureEvents (cacheKey "Login" "alice") 2,
          failureEvents (cacheKey "Login" "alice") 3]) ∧
      s3.captchaCache.Get (cacheKey "Login" "alice") = some 3 ∧
      (∀ r4 : Request, r4.newContextErr = none → r4.action = "Login" →
        r4.Form.Get "User" = "alice" →
        needCaptcha ⟨"User", 2⟩ s3.captchaCache r4.action r4.Form = true ∧
        ((r4.Form.Get "CaptchaId" = "" ∨ r4.Form.Get "CaptchaCode" = "") →
          ServeHTTP sampleGate (specEngine sampleGenerator) r4 s3 =
            some (s3, [Event.cacheGet (cacheKey "Login" "alice"), missingCaptcha]))) ∧
      (∀ r4 : Request, r4.newContextErr = none → r4.action = "Login" →
        r4.Form.Get "User" = "bob" →
        needCaptcha ⟨"User", 2⟩ s3.captchaCache r4.action r4.Form = false ∧
        ∃ s4 upd, ServeHTTP sampleGate (specEngine sampleGenerator) r4 s3 =
          some (s4, [Event.cacheGet (cacheKey "Login" "bob"), Event.next] ++ upd) ∧
          ∀ e ∈ upd, e.isTracker = true) :=
  C2_three_failures_scenario sampleGate (specEngine sampleGenerator) "Login"
    (mkRequest "Login" [("User", "alice")] true) (mkRequest "Login" [("User", "alice")] true)
    (mkRequest "Login" [("User", "alice")] true) sampleStore rfl (by decide) (by decide)
    (by decide) (by decide) (by decide)

/-- C6 (amended): for a gated action with `maxFailCount = k > 0` and a key whose
count exceeds `k`, a request whose captcha check succeeds and whose downstream
outcome is a success reaches `next` and leaves the count of the key at zero; a
following request for the same key whose downstream outcome is a failure is let
through unverified and leaves the count at 1. -/
theorem C6_reset_after_verified_success {σ : Type} (ca : Captcha) (eng : Engine σ)
    (cfg : CaptchaConfig) (r1 r2 : Request) (s : State σ) (c : Int)
    (hen : ca.disabled = false) (hctx : r1.newContextErr = none)
    (hget : r1.action ≠ ca.getAction) (hshow : r1.action ≠ ca.showAction)
    (hmatch : ca.captchaMatcher r1.action = true)
    (hcfg : ca.captchaConfigs r1.action = some cfg) (hpos : cfg.maxFailCount > 0)
    (hcount : s.captchaCache.Get (cacheKey r1.action (r1.Form.Get cfg.identifier)) = some c)
    (hgt : c > cfg.maxFailCount)
    (hid : r1.Form.Get "CaptchaId" ≠ "") (hcode : r1.Form.Get "CaptchaCode" ≠ "")
    (hv : (eng.VerifyString (r1.Form.Get "CaptchaId") (r1.Form.Get "CaptchaCode") s.store).1
      = true)
    (hok : r1.returnDataIsError = false)
    (hctx2 : r2.newContextErr = none) (hact2 : r2.action = r1.action)
    (hidv2 : r2.Form.Get cfg.identifier = r1.Form.Get cfg.identifier)
    (herr2 : r2.returnDataIsError = true) :
    ∃ s1 out1 s2, ServeHTTP ca eng r1 s = some (s1, out1) ∧ Event.next ∈ out1 ∧
      s1.captchaCache.Get (cacheKey r1.action (r1.Form.Get cfg.identifier)) = some 0 ∧
      ServeHTTP ca eng r2 s1 =
        some (s2, failureEvents (cacheKey r1.action (r1.Form.Get cfg.identifier)) 1) ∧
      s2.captchaCache.Get (cacheKey r1.action (r1.Form.Get cfg.identifier)) = some 1 := by
  have hneed : needCaptcha cfg s.captchaCache r1.action r1.Form = true := by
    rw [needCaptcha_eq]
    simp [hcount, hgt]
  have h1 := ServeHTTP_gated ca eng r1 s cfg hen hctx hget hshow hmatch hcfg
  have hnext : Event.next ∈ (serveGated cfg eng r1 s).2 := by
    rw [serveGated_verified cfg eng r1 s hneed hid hcode hv]
    simp [serveNext]
  have hc1 : (serveGated cfg eng r1 s).1.captchaCache.Get
      (cacheKey r1.action (r1.Form.Get cfg.identifier)) = some 0 := by
    rw [serveGated_cache, if_pos hnext, counterUpdate_Get_key _ _ _ _ _ hpos, hok, hcount]
    rfl
  have h2 := ServeHTTP_failure_below ca eng cfg r2 (serveGated cfg eng r1 s).1 0 hen hctx2
    (hact2 ▸ hget) (hact2 ▸ hshow) (hact2 ▸ hmatch) (hact2 ▸ hcfg) hpos herr2
    (Or.inr ⟨by rw [hact2, hidv2]; exact hc1, le_refl 0⟩) (by omega) (by decide)
  rw [hact2, hidv2] at h2
  exact ⟨(serveGated cfg eng r1 s).1, (serveGated cfg eng r1 s).2,
    ⟨(serveGated cfg eng r1 s).1.captchaCache.Set
      (cacheKey r1.action (r1.Form.Get cfg.identifier)) (0 + 1), (serveGated cfg eng r1 s).1.store⟩,
    h1, hnext, hc1, h2, Cache.Get_Set_self _ _ _⟩

/-- C6, as stated, fails: on "Pay" (threshold 1) with a stored count 2, a
request whose captcha check succeeds but whose downstream outcome is a failure
leaves the count at 3, not at zero. -/
theorem C6_counterexample :
    sampleGate.captchaConfigs "Pay" = some ⟨"User", 1⟩ ∧
    gatedState.captchaCache.Get (cacheKey "Pay" "alice") = some 2 ∧
    ((specEngine sampleGenerator).VerifyString "c1" "1234" gatedState.store).1 = true ∧
    (ServeHTTP sampleGate (specEngine sampleGenerator)
        (mkRequest "Pay" [("User", "alice"), ("CaptchaId", "c1"), ("CaptchaCode", "1234")] true)
        gatedState).map (fun p => (p.2, p.1.captchaCache.Get (cacheKey "Pay" "alice"))) =
      some ([Event.cacheGet "Pay|alice", Event.verifyString "c1" "1234", Event.reload "c1",
          Event.next, Event.cacheGet "Pay|alice", Event.cacheSet "Pay|alice" 3],
        some 3) := by
  decide

/-- Instance of C6 (amended) on the sample component: alice solves the
challenge "c1" on "Pay" with a successful outcome, then fails once. -/
theorem C6_reset_after_verified_success_witness :
    ∃ s1 out1 s2, ServeHTTP sampleGate (specEngine sampleGenerator)
        (mkRequest "Pay" [("User", "alice"), ("CaptchaId", "c1"), ("CaptchaCode", "1234")] false)
        gatedState = some (s1, out1) ∧ Event.next ∈ out1 ∧
      s1.captchaCache.Get (cacheKey "Pay" "alice") = some 0 ∧
      ServeHTTP sampleGate (specEngine sampleGenerator)
        (mkRequest "Pay" [("User", "alice")] true) s1 =
        some (s2, failureEvents (cacheKey "Pay" "alice") 1) ∧
      s2.captchaCache.Get (cacheKey "Pay" "alice") = some 1 :=
  C6_reset_after_verified_success sampleGate (specEngine sampleGenerator) ⟨"User", 1⟩
    (mkRequest "Pay" [("User", "alice"), ("CaptchaId", "c1"), ("CaptchaCode", "1234")] false)
    (mkRequest "Pay" [("User", "alice")] true) gatedState 2 rfl rfl (by decide) (by decide)
    (by decide) (by decide) (by decide) (by decide) (by decide) (by decide) (by decide)
    (by decide) rfl rfl rfl (by decide) rfl

/-- C7, as stated, fails: on "Login" with the stored count 9223372036854775807,
a request that solves the challenge, reaches `next` and fails downstream leaves
the count at -9223372036854775808 (`item.MustInt(0)+1` wraps), not at the old
count plus 1. -/
theorem C7_counterexample :
    sampleGate.captchaConfigs "Login" = some ⟨"User", 2⟩ ∧
    saturatedState.captchaCache.Get (cacheKey "Login" "alice") = some 9223372036854775807 ∧
    (ServeHTTP sampleGate (specEngine sampleGenerator)
        (mkRequest "Login" [("User", "alice"), ("CaptchaId", "c1"), ("CaptchaCode", "1234")]
          true) saturatedState).map
        (fun p => (p.2, p.1.captchaCache.Get (cacheKey "Login" "alice"))) =
      some ([Event.cacheGet "Login|alice", Event.verifyString "c1" "1234", Event.reload "c1",
          Event.next, Event.cacheGet "Login|alice",
          Event.cacheSet "Login|alice" (-9223372036854775808)],
        some (-9223372036854775808)) ∧
    (-9223372036854775808 : Int) ≠ 9223372036854775807 + 1 := by
  decide

/-- Instance of C7 (amended) on the sample component: alice, with 2 recorded
failures on "Pay", solves the challenge and fails downstream once more. -/
theorem C7_counter_update_witness :
    (true = true →
      (gatedState.captchaCache.Get (cacheKey "Pay" "alice") = none →
        (gatedState.captchaCache.Set "Pay|alice" 3).Get (cacheKey "Pay" "alice") = some 1) ∧
      (∀ c, gatedState.captchaCache.Get (cacheKey "Pay" "alice") = some c →
        minInt ≤ c → c < maxInt →
        (gatedState.captchaCache.Set "Pay|alice" 3).Get (cacheKey "Pay" "alice")
          = some (c + 1))) ∧
    (true = false →
      (∀ c, gatedState.captchaCache.Get (cacheKey "Pay" "alice") = some c →
        (gatedState.captchaCache.Set "Pay|alice" 3).Get (cacheKey "Pay" "alice") = some 0) ∧
      (gatedState.captchaCache.Get (cacheKey "Pay" "alice") = none →
        (gatedState.captchaCache.Set "Pay|alice" 3).Get (cacheKey "Pay" "alice") = none)) ∧
    (∀ k, k ≠ cacheKey "Pay" "alice" →
      (gatedState.captchaCache.Set "Pay|alice" 3).Get k = gatedState.captchaCache.Get k) :=
  C7_counter_update sampleGate (specEngine sampleGenerator)
    (mkRequest "Pay" [("User", "alice"), ("CaptchaId", "c1"), ("CaptchaCode", "1234")] true)
    gatedState
    ⟨gatedState.captchaCache.Set "Pay|alice" 3,
      ((specEngine sampleGenerator).Reload "c1" gatedState.store).2⟩
    [Event.cacheGet "Pay|alice", Event.verifyString "c1" "1234", Event.reload "c1",
      Event.next, Event.cacheGet "Pay|alice", Event.cacheSet "Pay|alice" 3]
    ⟨"User", 1⟩ rfl rfl (by decide) (by decide) (by decide) (by decide) (by decide)
    (by rfl) (by decide)

/-- Instance of C4 on the sample component: "Ping" is not protected. -/
theorem C4_unmatched_action_passes_through_witness :
    ServeHTTP sampleGate (specEngine sampleGenerator)
      (mkRequest "Ping" [("CaptchaId", "c1"), ("CaptchaCode", "0")] true) sampleState
      = some (sampleState, [Event.next]) :=
  C4_unmatched_action_passes_through sampleGate (specEngine sampleGenerator)
    (mkRequest "Ping" [("CaptchaId", "c1"), ("CaptchaCode", "0")] true) sampleState rfl
    (by decide) (by decide) (by decide)

/-- Instance of C3 on the sample component: "Register" has `maxFailCount = 0`;
a request without captcha fields is rejected with MissingCaptcha. -/
theorem C3_zero_threshold_requires_verification_witness :
    needCaptcha ⟨"", 0⟩ sampleState.captchaCache "Register"
      (mkRequest "Register" [("User", "alice")] false).Form = true ∧
    ∃ s1 out, ServeHTTP sampleGate (specEngine sampleGenerator)
        (mkRequest "Register" [("User", "alice")] false) sampleState = some (s1, out) ∧
      Event.next ∉ out ∧ (missingCaptcha ∈ out ∨ wrongCaptcha ∈ out) :=
  have h := C3_zero_threshold_requires_verification sampleGate (specEngine sampleGenerator)
    (mkRequest "Register" [("User", "alice")] false) sampleState ⟨"", 0⟩ rfl rfl (by decide)
    (by decide) rfl
  ⟨h.1 _ _, h.2.elim fun s1 h1 => h1.elim fun out h2 =>
    have hn : Event.next ∉ out := fun hm => absurd (h2.2.1 hm).1 (by decide)
    ⟨s1, out, h2.1, hn, (h2.2.2 (by decide) (by decide)).2 hn⟩⟩

/-- Instance of C8 on the sample component: a request to "Register" without
captcha fields. -/
theorem C8_missing_captcha_rejection_witness :
    errorName errorMissingCaptcha = some "MissingCaptcha" ∧
    ∃ s1 out, ServeHTTP sampleGate (specEngine sampleGenerator)
        (mkRequest "Register" [("User", "alice")] false) sampleState = some (s1, out) ∧
      (missingCaptcha ∈ out ↔
        ((mkRequest "Register" [("User", "alice")] false).Form.Get "CaptchaId" = "" ∨
          (mkRequest "Register" [("User", "alice")] false).Form.Get "CaptchaCode" = "")) ∧
      (missingCaptcha ∈ out →
        s1 = sampleState ∧ Event.next ∉ out ∧ (∀ i c, Event.verifyString i c ∉ out) ∧
          (∀ i, Event.reload i ∉ out) ∧ (∀ k v, Event.cacheSet k v ∉ out)) :=
  C8_missing_captcha_rejection sampleGate (specEngine sampleGenerator)
    (mkRequest "Register" [("User", "alice")] false) sampleState ⟨"", 0⟩ rfl rfl (by decide)
    (by decide) (by decide) (by decide) (by decide)

/-- Instance of C9 on the sample component: a request to "Register" with a
wrong answer for the challenge "c1". -/
theorem C9_wrong_captcha_rejection_witness :
    errorName errorWrongCaptcha = some "WrongCaptcha" ∧
    ∃ s1 out, ServeHTTP sampleGate (specEngine sampleGenerator)
        (mkRequest "Register" [("CaptchaId", "c1"), ("CaptchaCode", "0000")] false) sampleState
        = some (s1, out) ∧
      (wrongCaptcha ∈ out ↔
        ((specEngine sampleGenerator).VerifyString "c1" "0000" sampleState.store).1 = false) ∧
      (wrongCaptcha ∈ out →
        s1.captchaCache = sampleState.captchaCache ∧
        s1.store = ((specEngine sampleGenerator).Reload "c1"
          ((specEngine sampleGenerator).VerifyString "c1" "0000" sampleState.store).2).2 ∧
        out = (thresholdCheck ⟨"", 0⟩ sampleState.captchaCache "Register"
            (mkRequest "Register" [("CaptchaId", "c1"), ("CaptchaCode", "0000")] false).Form).2 ++
          [Event.verifyString "c1" "0000", Event.reload "c1", wrongCaptcha] ∧
        Event.next ∉ out ∧ (∀ k v, Event.cacheSet k v ∉ out)) :=
  C9_wrong_captcha_rejection sampleGate (specEngine sampleGenerator)
    (mkRequest "Register" [("CaptchaId", "c1"), ("CaptchaCode", "0000")] false) sampleState
    ⟨"", 0⟩ rfl rfl (by decide) (by decide) (by decide) (by decide) (by decide) (by decide)
    (by decide)

theorem sampleGenerator_rotate_ne (a : String) : sampleGenerator.rotate a ≠ a := by
  intro h
  have h2 := congrArg String.length h
  simp only [sampleGenerator, String.length_append] at h2
  have h3 : "7".length = 1 := by decide
  omega

/-- Instance of C5 on the sample component: a request to "Register" solves the
challenge "c1"; the same id and answer sent again are rejected. -/
theorem C5_reload_after_every_verification_witness :
    ([Event.verifyString "c1" "1234", Event.reload "c1", Event.next].count (Event.reload "c1") = 1 ∧
      ∃ pre post, [Event.verifyString "c1" "1234", Event.reload "c1", Event.next] =
          pre ++ [Event.verifyString "c1" "1234", Event.reload "c1"] ++ post ∧
        (∀ e ∈ pre, e.isTracker = true) ∧
        (if ((specEngine sampleGenerator).VerifyString "c1" "1234" sampleState.store).1 = true
          then ∃ upd, post = Event.next :: upd ∧ ∀ e ∈ upd, e.isTracker = true
          else post = [wrongCaptcha])) ∧
    ∃ s2 out2, ServeHTTP sampleGate (specEngine sampleGenerator)
        (mkRequest "Register" [("CaptchaId", "c1"), ("CaptchaCode", "1234")] false)
        ⟨sampleState.captchaCache, ((specEngine sampleGenerator).Reload "c1" sampleStore).2⟩
        = some (s2, out2) ∧
      Event.next ∉ out2 ∧ (missingCaptcha ∈ out2 ∨ wrongCaptcha ∈ out2) ∧
      ("c1" ≠ "" → "1234" ≠ "" → wrongCaptcha ∈ out2) :=
  ⟨C5_reload_after_every_verification.1 ChallengeStore sampleGate (specEngine sampleGenerator)
      (mkRequest "Register" [("CaptchaId", "c1"), ("CaptchaCode", "1234")] false) sampleState
      ⟨sampleState.captchaCache, ((specEngine sampleGenerator).Reload "c1" sampleStore).2⟩
      [Event.verifyString "c1" "1234", Event.reload "c1", Event.next] "c1" "1234" (by rfl)
      (by decide),
    C5_reload_after_every_verification.2 sampleGenerator sampleGate
      (mkRequest "Register" [("CaptchaId", "c1"), ("CaptchaCode", "1234")] false)
      (mkRequest "Register" [("CaptchaId", "c1"), ("CaptchaCode", "1234")] false) sampleState
      ⟨sampleState.captchaCache, ((specEngine sampleGenerator).Reload "c1" sampleStore).2⟩
      [Event.verifyString "c1" "1234", Event.reload "c1", Event.next] ⟨"", 0⟩ "c1" "1234" "1234"
      sampleGenerator_rotate_ne (by rfl) (by decide) (by decide) rfl rfl (by decide) (by decide)
      (by decide) (by decide) (by decide) (by decide) (by decide)⟩

theorem eq_of_append_cons_eq {α : Type} (x : α) :
    ∀ (l1 l2 r1 r2 : List α), x ∉ l1 → x ∉ l2 → l1 ++ x :: r1 = l2 ++ x :: r2 → l1 = l2
  | [], [], _, _, _, _, _ => rfl
  | [], y :: l2, _, _, _, h2, h => by
    simp only [List.nil_append, List.cons_append, List.cons.injEq] at h
    exact absurd (h.1 ▸ List.mem_cons_self _ _) h2
  | y :: l1, [], _, _, h1, _, h => by
    simp only [List.nil_append, List.cons_append, List.cons.injEq] at h
    exact absurd (h.1 ▸ List.mem_cons_self _ _) h1
  | y :: l1, z :: l2, r1, r2, h1, h2, h => by
    simp only [List.cons_append, List.cons.injEq] at h
    rw [h.1, eq_of_append_cons_eq x l1 l2 r1 r2 (fun hm => h1 (List.mem_cons_of_mem _ hm))
      (fun hm => h2 (List.mem_cons_of_mem _ hm)) h.2]

/-- Tracker keys of two distinct action names differ, whatever the identifier
values, as long as neither action name contains the separator. -/
theorem cacheKey_ne_of_no_separator (a1 a2 v1 v2 : String) (h : a1 ≠ a2)
    (h1 : Char.ofNat 124 ∉ a1.data) (h2 : Char.ofNat 124 ∉ a2.data) :
    cacheKey a1 v1 ≠ cacheKey a2 v2 := by
  intro hk
  unfold cacheKey at hk
  have hd := congrArg String.data hk
  simp only [String.data_append, List.append_assoc] at hd
  exact h (String.ext (eq_of_append_cons_eq (Char.ofNat 124) a1.data a2.data v1.data v2.data
    h1 h2 hd))

/-- C10, evaluated where it fails: the distinct action names "a" and "a|b" with
the identifier values "b|c" and "c" have the same tracker key "a|b|c".  Two
failures recorded for the action "a" make a request to the action "a|b", for
which nothing was recorded, require verification; without them the same request
is let through. -/
theorem C10_key_collision :
    "a" ≠ "a|b" ∧ cacheKey "a" "b|c" = cacheKey "a|b" "c" ∧
    (serveAll collidingGate (specEngine sampleGenerator)
        [mkRequest "a" [("User", "b|c")] true, mkRequest "a" [("User", "b|c")] true,
          mkRequest "a|b" [("User", "c")] false] sampleState).map (fun p => p.2) =
      some [[Event.cacheGet "a|b|c", Event.next, Event.cacheGet "a|b|c",
              Event.cacheSet "a|b|c" 1],
            [Event.cacheGet "a|b|c", Event.next, Event.cacheGet "a|b|c",
              Event.cacheSet "a|b|c" 2],
            [Event.cacheGet "a|b|c", missingCaptcha]] ∧
    (serveAll collidingGate (specEngine sampleGenerator)
        [mkRequest "a|b" [("User", "c")] false] sampleState).map (fun p => p.2) =
      some [[Event.cacheGet "a|b|c", Event.next, Event.cacheHas "a|b|c"]] := by
  decide

theorem lookup_isSome_of_mem_keys {β : Type} (a : String) :
    ∀ (l : List (String × β)), a ∈ l.map Prod.fst → (l.lookup a).isSome = true
  | [], h => by simp at h
  | (k, v) :: l, h => by
    by_cases hk : a = k
    · subst hk
      simp [List.lookup]
    · have hne : (a == k) = false := by simpa using hk
      simp only [List.map_cons, List.mem_cons, hk, false_or] at h
      simp only [List.lookup, hne]
      exact lookup_isSome_of_mem_keys a l h

/-- With a white list that accepts listed names only, the component built by
`init` has a policy for every action its matcher accepts, and `ServeHTTP`
returns on every request. -/
theorem init_policy_of_exact (cfg : Config) (setWhiteList : List String → String → Bool)
    (hexact : ∀ names a, setWhiteList names a = true → a ∈ names) (a : String)
    (hmatch : ((newCaptcha false).init cfg setWhiteList).1.captchaMatcher a = true) :
    (((newCaptcha false).init cfg setWhiteList).1.captchaConfigs a).isSome = true := by
  simp only [Captcha.init, newCaptcha, Bool.false_eq_true, if_false] at hmatch ⊢
  have hmem := hexact _ _ hmatch
  simp only [initConfigs, Option.isSome_map']
  exact lookup_isSome_of_mem_keys a cfg.actions hmem

theorem exactMatcher_mem (names : List String) (a : String)
    (h : exactMatcher names a = true) : a ∈ names := by
  simpa [exactMatcher] using h

/-- C11, evaluated where it fails: `init` builds the matcher and the policy
table from the one configured name "User.*".  With a white list that honours
the wildcard, `Match` accepts the action "User.Login", the table has no entry
for it, and `ServeHTTP` panics on the nil policy instead of returning; the
configured name itself has its policy. -/
theorem C11_pattern_without_policy :
    (NewCaptcha patternConfig wildcardMatcher).1.captchaMatcher "User.Login" = true ∧
    (NewCaptcha patternConfig wildcardMatcher).1.captchaConfigs "User.Login" = none ∧
    ServeHTTP (NewCaptcha patternConfig wildcardMatcher).1 (specEngine sampleGenerator)
      (mkRequest "User.Login" [("User", "alice")] false) sampleState = none ∧
    (NewCaptcha patternConfig wildcardMatcher).1.captchaConfigs "User.*" = some ⟨"User", 2⟩ := by
  refine ⟨by decide, by decide, by rfl, by decide⟩

/-- C19: a component constructed with the disable flag set answers every
request, whatever its action, form and context, by the one call `next` and
leaves tracker and challenge engine untouched: no issuance, no render, no
check, no rejection, no tracker call. -/
theorem C19_disabled_passes_everything_through {σ : Type} (cfg : Config)
    (setWhiteList : List String → String → Bool) (eng : Engine σ) (r : Request) (s : State σ)
    (hdis : cfg.disabled = some true) :
    (NewCaptcha cfg setWhiteList).1.disabled = true ∧
    ServeHTTP (NewCaptcha cfg setWhiteList).1 eng r s = some (s, [Event.next]) := by
  simp [NewCaptcha, hdis, newCaptcha, ServeHTTP]

/-- Instance of C19: the disable flag is set and the request names the default
issuance action. -/
theorem C19_disabled_passes_everything_through_witness :
    (NewCaptcha disabledConfig exactMatcher).1.disabled = true ∧
    ServeHTTP (NewCaptcha disabledConfig exactMatcher).1 (specEngine sampleGenerator)
      (mkRequest "GetCaptcha" [] false) sampleState = some (sampleState, [Event.next]) :=
  C19_disabled_passes_everything_through disabledConfig exactMatcher
    (specEngine sampleGenerator) (mkRequest "GetCaptcha" [] false) sampleState rfl

/-- C14 (amended): a request whose action is the configured issuance action
makes the call `NewLen` with the configured length and writes a result mapping
with exactly one entry, whose key is "CaptchaId" and whose value is the id that
call returned; nothing else is called. -/
theorem C14_issuance_response {σ : Type} (ca : Captcha) (eng : Engine σ) (r : Request)
    (s : State σ) (hen : ca.disabled = false) (hctx : r.newContextErr = none)
    (hget : r.action = ca.getAction) :
    ∃ s1 data, ServeHTTP ca eng r s =
        some (s1, [Event.newLen ca.captchaLength, Event.writeResponse (Response.result data)]) ∧
      data = [("CaptchaId", (eng.NewLen ca.captchaLength s.store).1)] ∧ data.length = 1 ∧
      s1.store = (eng.NewLen ca.captchaLength s.store).2 ∧
      s1.captchaCache = s.captchaCache :=
  ⟨_, _, ServeHTTP_get ca eng r s hen hctx hget, rfl, rfl, rfl, rfl⟩

/-- C14, as stated, fails: the mapping written for the default issuance action
has the key "CaptchaId", not "ChallengeId". -/
theorem C14_counterexample :
    (ServeHTTP sampleGate (specEngine sampleGenerator) (mkRequest "GetCaptcha" [] false)
        sampleState).map (fun p => p.2) =
      some [Event.newLen 4, Event.writeResponse (Response.result [("CaptchaId", "id1")])] ∧
    Response.result [("CaptchaId", "id1")] ≠ Response.result [("ChallengeId", "id1")] := by
  decide

/-- Instance of C14 (amended) on the sample component. -/
theorem C14_issuance_response_witness :
    ∃ s1 data, ServeHTTP sampleGate (specEngine sampleGenerator)
        (mkRequest "GetCaptcha" [] false) sampleState =
        some (s1, [Event.newLen sampleGate.captchaLength,
          Event.writeResponse (Response.result data)]) ∧
      data = [("CaptchaId",
        ((specEngine sampleGenerator).NewLen sampleGate.captchaLength sampleState.store).1)] ∧
      data.length = 1 ∧
      s1.store =
        ((specEngine sampleGenerator).NewLen sampleGate.captchaLength sampleState.store).2 ∧
      s1.captchaCache = sampleState.captchaCache :=
  C14_issuance_response sampleGate (specEngine sampleGenerator) (mkRequest "GetCaptcha" [] false)
    sampleState rfl rfl (by decide)

theorem imageSize_of_parsed (param : String) (dflt w : Int) (hne : param ≠ "")
    (hp : Atoi param = some w) (hlt : w < 300) : imageSize param dflt = w := by
  simp [imageSize, hne, hp, hlt]

theorem imageSize_default (param : String) (dflt : Int)
    (h : param = "" ∨ Atoi param = none ∨ ∃ w, Atoi param = some w ∧ 300 ≤ w) :
    imageSize param dflt = dflt := by
  unfold imageSize
  rcases h with h | h | ⟨w, hw, hge⟩
  · simp [h]
  · simp [h]
  · have : ¬ w < 300 := by omega
    simp [hw, this]

theorem imageSize_lt (param : String) (dflt : Int) (h : dflt < 300) :
    imageSize param dflt < 300 := by
  unfold imageSize
  split
  · split
    · split <;> assumption
    · exact h
  · exact h

/-- C12: on a render request with a challenge id, the renderer is called once,
with the id and a width and height chosen independently: the width is the value
`w` of the `Width` parameter when that parameter is non-empty, `Atoi` parses it
and `w < 300`, and the configured default `imgWidth` in every other case
(empty or absent, not parsed, or `w ≥ 300`); likewise for `Height` and
`imgHeight`.  A parameter value of 300 or more never reaches the renderer: the
default does, and the size handed over is below 300 whenever the default is. -/
theorem C12_render_size {σ : Type} (ca : Captcha) (eng : Engine σ) (r : Request)
    (s : State σ) (hen : ca.disabled = false) (hctx : r.newContextErr = none)
    (hget : r.action ≠ ca.getAction) (hshow : r.action = ca.showAction)
    (hid : r.Form.Get "CaptchaId" ≠ "") :
    ∃ s1 pre post W H,
      ServeHTTP ca eng r s =
        some (s1, pre ++ [Event.writeImage (r.Form.Get "CaptchaId") W H] ++ post) ∧
      (∀ e ∈ pre ++ post, ∀ i w h, e ≠ Event.writeImage i w h) ∧
      (∀ w, r.Form.Get "Width" ≠ "" → Atoi (r.Form.Get "Width") = some w → w < 300 → W = w) ∧
      ((r.Form.Get "Width" = "" ∨ Atoi (r.Form.Get "Width") = none ∨
          ∃ w, Atoi (r.Form.Get "Width") = some w ∧ 300 ≤ w) → W = ca.imgWidth) ∧
      (∀ h, r.Form.Get "Height" ≠ "" → Atoi (r.Form.Get "Height") = some h → h < 300 →
        H = h) ∧
      ((r.Form.Get "Height" = "" ∨ Atoi (r.Form.Get "Height") = none ∨
          ∃ h, Atoi (r.Form.Get "Height") = some h ∧ 300 ≤ h) → H = ca.imgHeight) ∧
      (ca.imgWidth < 300 → W < 300) ∧ (ca.imgHeight < 300 → H < 300) := by
  refine ⟨(serveShow ca eng r s).1,
    if r.Form.Get "Reload" ≠ "" then [Event.reload (r.Form.Get "CaptchaId")] else [],
    if (eng.WriteImage (r.Form.Get "CaptchaId") (imageSize (r.Form.Get "Width") ca.imgWidth)
        (imageSize (r.Form.Get "Height") ca.imgHeight)
        (if r.Form.Get "Reload" ≠ "" then (eng.Reload (r.Form.Get "CaptchaId") s.store).2
          else s.store)).1 = WriteImageResult.errNotFound then [Event.notFound] else [],
    imageSize (r.Form.Get "Width") ca.imgWidth, imageSize (r.Form.Get "Height") ca.imgHeight,
    ?_, ?_, fun w h1 h2 h3 => imageSize_of_parsed _ _ w h1 h2 h3,
    fun h => imageSize_default _ _ h, fun w h1 h2 h3 => imageSize_of_parsed _ _ w h1 h2 h3,
    fun h => imageSize_default _ _ h, fun h => imageSize_lt _ _ h, fun h => imageSize_lt _ _ h⟩
  · rw [ServeHTTP_show ca eng r s hen hctx hget hshow]
    unfold serveShow
    simp only [hid, if_false]
    split <;> rfl
  · intro e he i w h
    simp only [List.mem_append] at he
    rcases he with he | he
    · by_cases hr : r.Form.Get "Reload" ≠ ""
      · rw [if_pos hr, List.mem_singleton] at he
        subst he
        simp
      · rw [if_neg hr] at he
        simp at he
    · split_ifs at he <;> simp at he <;> subst he <;> simp

/-- Instance of C12 on the sample component: `Width=299` is handed over,
`Height=300` is replaced by the default 60. -/
theorem C12_render_size_witness :
    ∃ s1 pre post W H,
      ServeHTTP sampleGate (specEngine sampleGenerator)
          (mkRequest "ShowCaptcha" [("CaptchaId", "c1"), ("Width", "299"), ("Height", "300")]
            false) sampleState =
        some (s1, pre ++ [Event.writeImage "c1" W H] ++ post) ∧
      W = 299 ∧ H = 60 :=
  (C12_render_size sampleGate (specEngine sampleGenerator)
    (mkRequest "ShowCaptcha" [("CaptchaId", "c1"), ("Width", "299"), ("Height", "300")] false)
    sampleState rfl rfl (by decide) (by decide) (by decide)).elim
    fun s1 h1 => h1.elim fun pre h2 => h2.elim fun post h3 => h3.elim fun W h4 =>
      h4.elim fun H h5 =>
        ⟨s1, pre, post, W, H, h5.1, h5.2.2.1 299 (by decide) (by decide) (by decide),
          h5.2.2.2.2.2.1 (Or.inr (Or.inr ⟨300, by decide, by decide⟩))⟩

/-- C13: a request to the render action returns without calling `next` and
without `http.Error`, and leaves the tracker as it was.  When `CaptchaId` is
empty or absent the only call is `http.NotFound`: no `Reload`, no renderer.
When the renderer reports `ErrNotFound` for the id, the call that follows it is
`http.NotFound`, and it is the last one.  The not-found response is written in
these two cases only. -/
theorem C13_render_not_found {σ : Type} (ca : Captcha) (eng : Engine σ) (r : Request)
    (s : State σ) (hen : ca.disabled = false) (hctx : r.newContextErr = none)
    (hget : r.action ≠ ca.getAction) (hshow : r.action = ca.showAction) :
    ∃ s1 out, ServeHTTP ca eng r s = some (s1, out) ∧
      Event.next ∉ out ∧ (∀ msg code, Event.httpError msg code ∉ out) ∧
      s1.captchaCache = s.captchaCache ∧
      (r.Form.Get "CaptchaId" = "" → s1 = s ∧ out = [Event.notFound]) ∧
      (r.Form.Get "CaptchaId" ≠ "" →
        ∃ pre W H st, out = pre ++ [Event.writeImage (r.Form.Get "CaptchaId") W H] ++
            (if (eng.WriteImage (r.Form.Get "CaptchaId") W H st).1 = WriteImageResult.errNotFound
              then [Event.notFound] else []) ∧
          (pre = [] ∨ pre = [Event.reload (r.Form.Get "CaptchaId")]) ∧
          s1.store = (eng.WriteImage (r.Form.Get "CaptchaId") W H st).2) := by
  refine ⟨(serveShow ca eng r s).1, (serveShow ca eng r s).2,
    ServeHTTP_show ca eng r s hen hctx hget hshow, next_not_mem_serveShow ca eng r s, ?_, ?_, ?_,
    ?_⟩
  · intro msg code
    unfold serveShow
    dsimp only
    split
    · simp
    · split <;> split <;> simp
  · unfold serveShow
    dsimp only
    split <;> rfl
  · intro hid
    simp [serveShow, hid]
  · intro hid
    unfold serveShow
    simp only [hid, if_false]
    by_cases hr : r.Form.Get "Reload" ≠ ""
    · simp only [if_pos hr]
      exact ⟨[Event.reload (r.Form.Get "CaptchaId")], imageSize (r.Form.Get "Width") ca.imgWidth,
        imageSize (r.Form.Get "Height") ca.imgHeight,
        (eng.Reload (r.Form.Get "CaptchaId") s.store).2, rfl, Or.inr rfl, rfl⟩
    · simp only [if_neg hr]
      exact ⟨[], imageSize (r.Form.Get "Width") ca.imgWidth,
        imageSize (r.Form.Get "Height") ca.imgHeight, s.store, rfl, Or.inl rfl, rfl⟩

/-- Instance of C13 on the sample component: the challenge "nope" is unknown to
the store, so the renderer reports `ErrNotFound`. -/
theorem C13_render_not_found_witness :
    (ServeHTTP sampleGate (specEngine sampleGenerator)
        (mkRequest "ShowCaptcha" [("CaptchaId", "nope")] false) sampleState).map
        (fun p => p.2) = some [Event.writeImage "nope" 180 60, Event.notFound] ∧
    ∃ s1 out, ServeHTTP sampleGate (specEngine sampleGenerator)
        (mkRequest "ShowCaptcha" [] false) sampleState = some (s1, out) ∧
      Event.next ∉ out ∧ out = [Event.notFound] :=
  ⟨by decide,
    (C13_render_not_found sampleGate (specEngine sampleGenerator)
      (mkRequest "ShowCaptcha" [] false) sampleState rfl rfl (by decide) (by decide)).elim
      fun s1 h1 => h1.elim fun out h2 => ⟨s1, out, h2.1, h2.2.1, (h2.2.2.2.2.1 (by decide)).2⟩⟩

theorem serveShow_cache {σ : Type} (ca : Captcha) (eng : Engine σ) (r : Request) (s : State σ) :
    (serveShow ca eng r s).1.captchaCache = s.captchaCache := by
  unfold serveShow
  dsimp only
  split <;> rfl

theorem serveShow_not_isTracker {σ : Type} (ca : Captcha) (eng : Engine σ) (r : Request)
    (s : State σ) : ∀ e ∈ (serveShow ca eng r s).2, e.isTracker = false := by
  intro e he
  unfold serveShow at he
  dsimp only at he
  split_ifs at he <;> simp at he <;> rcases he with rfl | rfl | rfl <;> rfl

/-- The tracker is written on the gated path only, by a request whose policy has
`maxFailCount > 0` and which reached `next`. -/
theorem serveGated_write {σ : Type} (cfg : CaptchaConfig) (eng : Engine σ) (r : Request)
    (s : State σ)
    (h : (serveGated cfg eng r s).1.captchaCache ≠ s.captchaCache ∨
      ∃ k v, Event.cacheSet k v ∈ (serveGated cfg eng r s).2) :
    cfg.maxFailCount > 0 ∧ Event.next ∈ (serveGated cfg eng r s).2 := by
  have hev := thresholdCheck_events cfg s.captchaCache r.action r.Form
  have hchk : ∀ k v, Event.cacheSet k v ∉ (thresholdCheck cfg s.captchaCache r.action r.Form).2 := by
    intro k v
    rw [hev]
    split <;> simp
  have hupd : ¬ cfg.maxFailCount > 0 →
      counterUpdate cfg s.captchaCache r.action r.Form r.returnDataIsError
        = (s.captchaCache, []) :=
    counterUpdate_of_not_pos cfg s.captchaCache r.action r.Form r.returnDataIsError
  cases hneed : needCaptcha cfg s.captchaCache r.action r.Form
  · rw [serveGated_free cfg eng r s hneed] at h ⊢
    simp only [serveNext] at h ⊢
    refine ⟨?_, by simp⟩
    by_contra hpos
    rw [hupd hpos] at h
    rcases h with h | ⟨k, v, h⟩
    · exact h rfl
    · simp [hchk] at h
  by_cases hmiss : r.Form.Get "CaptchaId" = "" ∨ r.Form.Get "CaptchaCode" = ""
  · rw [serveGated_missing cfg eng r s hneed hmiss] at h
    exfalso
    rcases h with h | ⟨k, v, h⟩
    · exact h rfl
    · simp [hchk, missingCaptcha] at h
  have hid : r.Form.Get "CaptchaId" ≠ "" := fun h => hmiss (Or.inl h)
  have hcode : r.Form.Get "CaptchaCode" ≠ "" := fun h => hmiss (Or.inr h)
  cases hv : (eng.VerifyString (r.Form.Get "CaptchaId") (r.Form.Get "CaptchaCode") s.store).1
  · rw [serveGated_wrong cfg eng r s hneed hid hcode hv] at h
    exfalso
    rcases h with h | ⟨k, v, h⟩
    · exact h rfl
    · simp [hchk, wrongCaptcha] at h
  · rw [serveGated_verified cfg eng r s hneed hid hcode hv] at h ⊢
    simp only [serveNext] at h ⊢
    refine ⟨?_, by simp⟩
    by_contra hpos
    rw [hupd hpos] at h
    rcases h with h | ⟨k, v, h⟩
    · exact h rfl
    · simp [hchk] at h

/-- The path a returning call of `ServeHTTP` took: past the gate of a matched
action with its policy, or one of the paths that leave the tracker alone and
make no tracker call. -/
theorem ServeHTTP_paths {σ : Type} (ca : Captcha) (eng : Engine σ) (r : Request)
    (s s1 : State σ) (out : List Event) (h : ServeHTTP ca eng r s = some (s1, out)) :
    (ca.disabled = false ∧ r.newContextErr = none ∧ r.action ≠ ca.getAction ∧
      r.action ≠ ca.showAction ∧ ca.captchaMatcher r.action = true ∧
      ∃ cfg, ca.captchaConfigs r.action = some cfg ∧ (s1, out) = serveGated cfg eng r s) ∨
    (s1.captchaCache = s.captchaCache ∧ (∀ e ∈ out, e.isTracker = false) ∧
      (ca.disabled = false → r.newContextErr = none →
        (r.action = ca.getAction ∨ r.action = ca.showAction) → Event.next ∉ out)) := by
  unfold ServeHTTP at h
  split at h
  · rename_i hd
    simp only [Option.some.injEq, Prod.mk.injEq] at h
    obtain ⟨rfl, rfl⟩ := h
    exact Or.inr ⟨rfl, by simp [Event.isTracker], fun hen => by simp [hd] at hen⟩
  rename_i hd
  split at h
  · rename_i err herr
    simp only [Option.some.injEq, Prod.mk.injEq] at h
    obtain ⟨rfl, rfl⟩ := h
    exact Or.inr ⟨rfl, by simp [Event.isTracker], fun _ hc => by simp [herr] at hc⟩
  rename_i hctx
  split at h
  · simp only [Option.some.injEq, Prod.mk.injEq] at h
    obtain ⟨rfl, rfl⟩ := h
    exact Or.inr ⟨rfl, by simp [Event.isTracker], fun _ _ _ => by simp⟩
  rename_i hget
  split at h
  · simp only [Option.some.injEq] at h
    have h1 : s1 = (serveShow ca eng r s).1 := by rw [h]
    have h2 : out = (serveShow ca eng r s).2 := by rw [h]
    subst h1 h2
    exact Or.inr ⟨serveShow_cache ca eng r s, serveShow_not_isTracker ca eng r s,
      fun _ _ _ => next_not_mem_serveShow ca eng r s⟩
  rename_i hshow
  split at h
  · rename_i hm
    simp only [Option.some.injEq, Prod.mk.injEq] at h
    obtain ⟨rfl, rfl⟩ := h
    refine Or.inr ⟨rfl, by simp [Event.isTracker], fun _ _ hgs => ?_⟩
    rcases hgs with h1 | h1
    · exact absurd h1 hget
    · exact absurd h1 hshow
  rename_i hm
  split at h
  · exact absurd h (by simp)
  rename_i cfg hcfg
  simp only [Option.some.injEq] at h
  exact Or.inl ⟨by simpa using hd, hctx, hget, hshow, by simpa using hm, cfg, hcfg, h.symm⟩

/-- C17: whenever `ServeHTTP` returns, the tracker is changed, or a tracker `Set`
is among the events, only if the request went to a matched action (past the
issuance/render switch) whose policy has `maxFailCount > 0` and reached `next`.
A request that resolves to the issuance or the render action, protected or not,
leaves the tracker as it was, makes no tracker call and never calls `next`; a
request to a matched action with `maxFailCount = 0` leaves the tracker as it
was and makes no tracker call. -/
theorem C17_tracker_written_only_after_gated_next {σ : Type} (ca : Captcha) (eng : Engine σ)
    (r : Request) (s s1 : State σ) (out : List Event)
    (h : ServeHTTP ca eng r s = some (s1, out)) :
    ((s1.captchaCache ≠ s.captchaCache ∨ ∃ k v, Event.cacheSet k v ∈ out) →
      ca.disabled = false ∧ r.newContextErr = none ∧ r.action ≠ ca.getAction ∧
      r.action ≠ ca.showAction ∧ ca.captchaMatcher r.action = true ∧
      (∃ cfg, ca.captchaConfigs r.action = some cfg ∧ cfg.maxFailCount > 0) ∧
      Event.next ∈ out) ∧
    (ca.disabled = false → r.newContextErr = none →
      (r.action = ca.getAction ∨ r.action = ca.showAction) →
      s1.captchaCache = s.captchaCache ∧ (∀ e ∈ out, e.isTracker = false) ∧
        Event.next ∉ out) ∧
    (∀ cfg, ca.captchaConfigs r.action = some cfg → cfg.maxFailCount = 0 →
      s1.captchaCache = s.captchaCache ∧ ∀ e ∈ out, e.isTracker = false) := by
  rcases ServeHTTP_paths ca eng r s s1 out h with
    ⟨hen, hctx, hget, hshow, hmatch, cfg, hcfg, hres⟩ | ⟨hcache, hnot, hnext⟩
  · have hs1 : s1 = (serveGated cfg eng r s).1 := by rw [← hres]
    have hout : out = (serveGated cfg eng r s).2 := by rw [← hres]
    subst hs1 hout
    refine ⟨fun hw => ?_, fun _ _ hgs => ?_, fun cfg0 hcfg0 hzero => ?_⟩
    · obtain ⟨hpos, hn⟩ := serveGated_write cfg eng r s hw
      exact ⟨hen, hctx, hget, hshow, hmatch, ⟨cfg, hcfg, hpos⟩, hn⟩
    · rcases hgs with h1 | h1
      · exact absurd h1 hget
      · exact absurd h1 hshow
    · rw [hcfg] at hcfg0
      simp only [Option.some.injEq] at hcfg0
      subst hcfg0
      have hnw : ¬ ((serveGated cfg eng r s).1.captchaCache ≠ s.captchaCache ∨
          ∃ k v, Event.cacheSet k v ∈ (serveGated cfg eng r s).2) := fun hw => by
        have := (serveGated_write cfg eng r s hw).1
        omega
      refine ⟨by_contra fun hne => hnw (Or.inl hne), ?_⟩
      have hneed : needCaptcha cfg s.captchaCache r.action r.Form = true := by
        simp [needCaptcha, thresholdCheck, hzero]
      have hev : (thresholdCheck cfg s.captchaCache r.action r.Form).2 = [] := by
        rw [thresholdCheck_events]
        simp [hzero]
      have hupd := counterUpdate_of_not_pos cfg s.captchaCache r.action r.Form
        r.returnDataIsError (by omega)
      intro e he
      by_cases hmiss : r.Form.Get "CaptchaId" = "" ∨ r.Form.Get "CaptchaCode" = ""
      · rw [serveGated_missing cfg eng r s hneed hmiss, hev] at he
        simp only [List.nil_append, List.mem_singleton] at he
        subst he
        rfl
      have hid : r.Form.Get "CaptchaId" ≠ "" := fun h => hmiss (Or.inl h)
      have hcode : r.Form.Get "CaptchaCode" ≠ "" := fun h => hmiss (Or.inr h)
      cases hv : (eng.VerifyString (r.Form.Get "CaptchaId") (r.Form.Get "CaptchaCode")
        s.store).1
      · rw [serveGated_wrong cfg eng r s hneed hid hcode hv, hev] at he
        simp only [List.nil_append, List.mem_cons, List.mem_singleton, List.not_mem_nil,
          or_false] at he
        rcases he with rfl | rfl | rfl <;> rfl
      · rw [serveGated_verified cfg eng r s hneed hid hcode hv, hev] at he
        simp only [serveNext, hupd, List.nil_append, List.append_nil, List.mem_append,
          List.mem_cons, List.mem_singleton, List.not_mem_nil, or_false] at he
        rcases he with (rfl | rfl) | rfl <;> rfl
  · refine ⟨fun hw => ?_, fun hen hctx hgs => ⟨hcache, hnot, hnext hen hctx hgs⟩,
      fun _ _ _ => ⟨hcache, hnot⟩⟩
    exfalso
    rcases hw with hw | ⟨k, v, hw⟩
    · exact hw hcache
    · have := hnot _ hw
      simp [Event.isTracker] at this

/-- Instance of C17 on a component whose protected set lists the issuance action
itself: the request is answered as an issuance, the tracker stays as it was and
`next` is not called. -/
theorem C17_tracker_written_only_after_gated_next_witness :
    (exactGate [("GetCaptcha", ⟨"User", 1⟩)]).captchaMatcher "GetCaptcha" = true ∧
    sampleState.captchaCache = sampleState.captchaCache ∧
    (∀ e ∈ [Event.newLen 4, Event.writeResponse (Response.result [("CaptchaId", "id1")])],
      e.isTracker = false) ∧
    Event.next ∉ [Event.newLen 4, Event.writeResponse (Response.result [("CaptchaId", "id1")])] :=
  ⟨by decide,
    (C17_tracker_written_only_after_gated_next (exactGate [("GetCaptcha", ⟨"User", 1⟩)])
      (specEngine sampleGenerator) (mkRequest "GetCaptcha" [("User", "alice")] true) sampleState
      ⟨sampleState.captchaCache, ((specEngine sampleGenerator).NewLen 4 sampleStore).2⟩
      [Event.newLen 4, Event.writeResponse (Response.result [("CaptchaId", "id1")])]
      (by rfl)).2.1 rfl rfl (Or.inl rfl)⟩

/-- On the gated path with `needCaptcha` true, `next` runs only after a check
that `VerifyString` accepted on non-empty fields. -/
theorem serveGated_next_of_need {σ : Type} (cfg : CaptchaConfig) (eng : Engine σ) (r : Request)
    (s : State σ) (hneed : needCaptcha cfg s.captchaCache r.action r.Form = true)
    (hnext : Event.next ∈ (serveGated cfg eng r s).2) :
    r.Form.Get "CaptchaId" ≠ "" ∧ r.Form.Get "CaptchaCode" ≠ "" ∧
      (eng.VerifyString (r.Form.Get "CaptchaId") (r.Form.Get "CaptchaCode") s.store).1 = true := by
  have hT := thresholdCheck_isTracker cfg s.captchaCache r.action r.Form
  by_cases hmiss : r.Form.Get "CaptchaId" = "" ∨ r.Form.Get "CaptchaCode" = ""
  · rw [serveGated_missing cfg eng r s hneed hmiss] at hnext
    simp [not_mem_of_isTracker hT, Event.isTracker, missingCaptcha] at hnext
  have hid : r.Form.Get "CaptchaId" ≠ "" := fun h => hmiss (Or.inl h)
  have hcode : r.Form.Get "CaptchaCode" ≠ "" := fun h => hmiss (Or.inr h)
  cases hv : (eng.VerifyString (r.Form.Get "CaptchaId") (r.Form.Get "CaptchaCode") s.store).1
  · rw [serveGated_wrong cfg eng r s hneed hid hcode hv] at hnext
    simp [not_mem_of_isTracker hT, Event.isTracker, wrongCaptcha] at hnext
  · exact ⟨hid, hcode, rfl⟩

/-- C18 (amended): for a gated action `a` with `maxFailCount = k > 0` and an
identifier value `v` whose tracker key, the string `a|v`, holds a count `c` above
`k` and below the largest Go `int`: after any single request to the action `a`
with the identifier value `v`, either the stored count is still above `k`, or
the request carried a non-empty `CaptchaId` and `CaptchaCode` that
`VerifyString` accepted, reached `next` with a successful outcome, and the
stored count is 0; and a request whose own tracker key, if it has one, is a
different string leaves the count of this key as it was.  A request to another
action whose key is the same string is not covered. -/
theorem C18_gating_stays_on {σ : Type} (ca : Captcha) (eng : Engine σ) (cfg : CaptchaConfig)
    (a v : String) (r : Request) (s s1 : State σ) (out : List Event) (c : Int)
    (hcfg : ca.captchaConfigs a = some cfg) (hpos : cfg.maxFailCount > 0)
    (hcount : s.captchaCache.Get (cacheKey a v) = some c) (hgt : c > cfg.maxFailCount)
    (hc : c < maxInt) (hserve : ServeHTTP ca eng r s = some (s1, out)) :
    (r.action = a → r.Form.Get cfg.identifier = v →
      (∃ c1, s1.captchaCache.Get (cacheKey a v) = some c1 ∧ c1 > cfg.maxFailCount) ∨
      (r.Form.Get "CaptchaId" ≠ "" ∧ r.Form.Get "CaptchaCode" ≠ "" ∧
        (eng.VerifyString (r.Form.Get "CaptchaId") (r.Form.Get "CaptchaCode") s.store).1 = true ∧
        r.returnDataIsError = false ∧ Event.next ∈ out ∧
        s1.captchaCache.Get (cacheKey a v) = some 0)) ∧
    ((∀ cfg1, ca.captchaConfigs r.action = some cfg1 →
        cacheKey r.action (r.Form.Get cfg1.identifier) ≠ cacheKey a v) →
      s1.captchaCache.Get (cacheKey a v) = s.captchaCache.Get (cacheKey a v)) := by
  rcases ServeHTTP_paths ca eng r s s1 out hserve with
    ⟨-, -, -, -, -, cfg1, hcfg1, hres⟩ | ⟨hcache, -, -⟩
  · have hs1 : s1 = (serveGated cfg1 eng r s).1 := by rw [← hres]
    have hout : out = (serveGated cfg1 eng r s).2 := by rw [← hres]
    subst hs1 hout
    have hcch := serveGated_cache cfg1 eng r s
    constructor
    · intro hact hidv
      rw [hact, hcfg] at hcfg1
      simp only [Option.some.injEq] at hcfg1
      subst hcfg1
      have hneed : needCaptcha cfg s.captchaCache r.action r.Form = true := by
        rw [needCaptcha_eq, hact, hidv, hcount]
        simp [hgt]
      by_cases hnext : Event.next ∈ (serveGated cfg eng r s).2
      · rw [if_pos hnext] at hcch
        obtain ⟨hid, hcode, hv⟩ := serveGated_next_of_need cfg eng r s hneed hnext
        have hkey := counterUpdate_Get_key cfg s.captchaCache r.action r.Form
          r.returnDataIsError hpos
        rw [hact, hidv, hcount] at hkey
        cases herr : r.returnDataIsError
        · right
          refine ⟨hid, hcode, hv, rfl, hnext, ?_⟩
          rw [hcch, hact, hkey, herr]
          rfl
        · left
          refine ⟨c + 1, ?_, by omega⟩
          rw [hcch, hact, hkey, herr]
          simp only [if_true]
          rw [wrapInt_of_range (by unfold minInt; omega) (by omega)]
      · rw [if_neg hnext] at hcch
        left
        exact ⟨c, by rw [hcch]; exact hcount, hgt⟩
    · intro hother
      rw [hcch]
      split
      · exact counterUpdate_Get_other cfg1 s.captchaCache r.action r.Form _ _
          (fun h => hother cfg1 hcfg1 h.symm)
      · rfl
  · rw [hcache]
    exact ⟨fun _ _ => Or.inl ⟨c, hcount, hgt⟩, fun _ => rfl⟩

/-- C18, as stated, fails, in two ways.  On "Pay" (threshold 1) with the stored
count 9223372036854775807 for bob, a request of bob that solves the challenge
and fails downstream leaves the count at -9223372036854775808, which is not
above the threshold, although no request succeeded.  And with the protected
actions "a" (threshold 5) and "a|b" (threshold 1) and the count 2 stored for the
key of ("a|b", "c"), a request to the other action "a" with `User=b|c`, which
carries no captcha fields and succeeds downstream, sets that count to 0. -/
theorem C18_counterexample :
    (sampleGate.captchaConfigs "Pay" = some ⟨"User", 1⟩ ∧
      (NewCacheEx.Set "Pay|bob" 9223372036854775807).Get (cacheKey "Pay" "bob")
        = some 9223372036854775807 ∧
      (ServeHTTP sampleGate (specEngine sampleGenerator)
          (mkRequest "Pay" [("User", "bob"), ("CaptchaId", "c1"), ("CaptchaCode", "1234")] true)
          ⟨NewCacheEx.Set "Pay|bob" 9223372036854775807, sampleStore⟩).map
          (fun p => (decide (Event.next ∈ p.2), p.1.captchaCache.Get (cacheKey "Pay" "bob"))) =
        some (true, some (-9223372036854775808)) ∧
      ¬ ((-9223372036854775808 : Int) > 1) ∧
      (mkRequest "Pay" [("User", "bob"), ("CaptchaId", "c1"), ("CaptchaCode", "1234")]
        true).returnDataIsError = true) ∧
    ((exactGate [("a", ⟨"User", 5⟩), ("a|b", ⟨"User", 1⟩)]).captchaConfigs "a|b"
        = some ⟨"User", 1⟩ ∧
      (NewCacheEx.Set "a|b|c" 2).Get (cacheKey "a|b" "c") = some 2 ∧
      "a" ≠ "a|b" ∧
      (mkRequest "a" [("User", "b|c")] false).Form.Get "CaptchaId" = "" ∧
      (ServeHTTP (exactGate [("a", ⟨"User", 5⟩), ("a|b", ⟨"User", 1⟩)])
          (specEngine sampleGenerator) (mkRequest "a" [("User", "b|c")] false)
          ⟨NewCacheEx.Set "a|b|c" 2, sampleStore⟩).map
          (fun p => (p.2, p.1.captchaCache.Get (cacheKey "a|b" "c"))) =
        some ([Event.cacheGet "a|b|c", Event.next, Event.cacheHas "a|b|c",
            Event.cacheSet "a|b|c" 0],
          some 0)) := by
  decide

/-- Instance of C18 (amended) on the sample component: alice, with 2 recorded
failures on "Pay", sends a request without captcha fields; it is rejected and
the count stays at 2, above the threshold 1. -/
theorem C18_gating_stays_on_witness :
    ((mkRequest "Pay" [("User", "alice")] true).action = "Pay" →
      (mkRequest "Pay" [("User", "alice")] true).Form.Get "User" = "alice" →
      (∃ c1, gatedState.captchaCache.Get (cacheKey "Pay" "alice") = some c1 ∧ c1 > 1) ∨
      ((mkRequest "Pay" [("User", "alice")] true).Form.Get "CaptchaId" ≠ "" ∧
        (mkRequest "Pay" [("User", "alice")] true).Form.Get "CaptchaCode" ≠ "" ∧
        ((specEngine sampleGenerator).VerifyString
          ((mkRequest "Pay" [("User", "alice")] true).Form.Get "CaptchaId")
          ((mkRequest "Pay" [("User", "alice")] true).Form.Get "CaptchaCode")
          gatedState.store).1 = true ∧
        (mkRequest "Pay" [("User", "alice")] true).returnDataIsError = false ∧
        Event.next ∈ [Event.cacheGet "Pay|alice", missingCaptcha] ∧
        gatedState.captchaCache.Get (cacheKey "Pay" "alice") = some 0)) ∧
    ((∀ cfg1, sampleGate.captchaConfigs (mkRequest "Pay" [("User", "alice")] true).action
        = some cfg1 →
        cacheKey (mkRequest "Pay" [("User", "alice")] true).action
          ((mkRequest "Pay" [("User", "alice")] true).Form.Get cfg1.identifier)
          ≠ cacheKey "Pay" "alice") →
      gatedState.captchaCache.Get (cacheKey "Pay" "alice")
        = gatedState.captchaCache.Get (cacheKey "Pay" "alice")) :=
  C18_gating_stays_on sampleGate (specEngine sampleGenerator) ⟨"User", 1⟩ "Pay" "alice"
    (mkRequest "Pay" [("User", "alice")] true) gatedState gatedState
    [Event.cacheGet "Pay|alice", missingCaptcha] 2 (by decide) (by decide) (by decide)
    (by decide) (by decide) (by rfl)

theorem counterUpdate_counts (cfg : CaptchaConfig) (cache : Cache) (action : String)
    (form : Values) (isError : Bool) (n : Int)
    (hinv : ∀ k v, cache.Get k = some v → 0 ≤ v ∧ v ≤ n) (hn : 0 ≤ n) (hlt : n < maxInt) :
    ∀ k v, (counterUpdate cfg cache action form isError).1.Get k = some v →
      0 ≤ v ∧ v ≤ n + 1 := by
  intro k v hk
  by_cases hpos : cfg.maxFailCount > 0
  · by_cases hkey : k = cacheKey action (form.Get cfg.identifier)
    · subst hkey
      rw [counterUpdate_Get_key cfg cache action form isError hpos] at hk
      cases isError
      · simp only [Bool.false_eq_true, if_false, Option.map_eq_some'] at hk
        obtain ⟨_, _, rfl⟩ := hk
        omega
      · simp only [if_true, Option.some.injEq] at hk
        cases hg : cache.Get (cacheKey action (form.Get cfg.identifier)) with
        | none =>
          rw [hg] at hk
          simp only at hk
          omega
        | some c =>
          rw [hg] at hk
          simp only at hk
          have hc := hinv _ _ hg
          rw [wrapInt_of_range (by unfold minInt; omega) (by omega)] at hk
          omega
    · rw [counterUpdate_Get_other cfg cache action form isError k hkey] at hk
      have := hinv k v hk
      omega
  · rw [counterUpdate_of_not_pos cfg cache action form isError hpos] at hk
    have := hinv k v hk
    omega

/-- One request moves the bound on the stored counts up by at most one. -/
theorem ServeHTTP_counts {σ : Type} (ca : Captcha) (eng : Engine σ) (r : Request)
    (s s1 : State σ) (out : List Event) (n : Int)
    (h : ServeHTTP ca eng r s = some (s1, out))
    (hinv : ∀ k v, s.captchaCache.Get k = some v → 0 ≤ v ∧ v ≤ n) (hn : 0 ≤ n)
    (hlt : n < maxInt) :
    ∀ k v, s1.captchaCache.Get k = some v → 0 ≤ v ∧ v ≤ n + 1 := by
  rcases ServeHTTP_paths ca eng r s s1 out h with
    ⟨-, -, -, -, -, cfg, -, hres⟩ | ⟨hcache, -, -⟩
  · have hs1 : s1 = (serveGated cfg eng r s).1 := by rw [← hres]
    subst hs1
    rw [serveGated_cache]
    split
    · exact counterUpdate_counts cfg s.captchaCache r.action r.Form r.returnDataIsError n hinv
        hn hlt
    · intro k v hk
      have := hinv k v hk
      omega
  · rw [hcache]
    intro k v hk
    have := hinv k v hk
    omega

/-- A run of requests moves the bound on the stored counts up by at most its
length. -/
theorem serveAll_counts {σ : Type} (ca : Captcha) (eng : Engine σ) :
    ∀ (rs : List Request) (s s1 : State σ) (outs : List (List Event)) (n : Int),
      serveAll ca eng rs s = some (s1, outs) →
      (∀ k v, s.captchaCache.Get k = some v → 0 ≤ v ∧ v ≤ n) → 0 ≤ n →
      n + rs.length ≤ maxInt →
      ∀ k v, s1.captchaCache.Get k = some v → 0 ≤ v ∧ v ≤ n + rs.length := by
  intro rs
  induction rs with
  | nil =>
    intro s s1 outs n h hinv _ _
    simp only [serveAll, Option.some.injEq, Prod.mk.injEq] at h
    rw [← h.1]
    simpa using hinv
  | cons r rs ih =>
    intro s s1 outs n h hinv hn hlen
    simp only [List.length_cons, Nat.cast_add, Nat.cast_one] at hlen ⊢
    unfold serveAll at h
    cases h1 : ServeHTTP ca eng r s with
    | none => simp [h1] at h
    | some p =>
      obtain ⟨s2, out⟩ := p
      simp only [h1] at h
      cases h2 : serveAll ca eng rs s2 with
      | none => simp [h2] at h
      | some q =>
        obtain ⟨s3, outs2⟩ := q
        simp only [h2, Option.some.injEq, Prod.mk.injEq] at h
        obtain ⟨rfl, -⟩ := h
        have hstep := ServeHTTP_counts ca eng r s s2 out n h1 hinv hn (by omega)
        have := ih s2 s3 outs2 (n + 1) h2 hstep (by omega) (by omega)
        intro k v hk
        have := this k v hk
        omega

/-- C15 (amended): the tracker `init` creates is empty, so every count stored in
it is `≥ 0`; a request served on a tracker whose counts are all `≥ 0` and below
the largest Go `int` leaves every stored count `≥ 0`, for every component,
engine, action, form and downstream outcome; hence after every run of at most
`2^63 - 1` requests that starts on the empty tracker, every stored count lies
between 0 and the number of requests served. -/
theorem C15_counts_stay_nonnegative :
    ((∀ (cfg : Config) (setWhiteList : List String → String → Bool),
        ((newCaptcha false).init cfg setWhiteList).2 = some NewCacheEx) ∧
      ∀ k v, NewCacheEx.Get k = some v → 0 ≤ v) ∧
    (∀ (σ : Type) (ca : Captcha) (eng : Engine σ) (r : Request) (s s1 : State σ)
        (out : List Event),
      ServeHTTP ca eng r s = some (s1, out) →
      (∀ k v, s.captchaCache.Get k = some v → 0 ≤ v ∧ v < maxInt) →
      ∀ k v, s1.captchaCache.Get k = some v → 0 ≤ v) ∧
    (∀ (σ : Type) (ca : Captcha) (eng : Engine σ) (rs : List Request) (st : σ)
        (s1 : State σ) (outs : List (List Event)),
      serveAll ca eng rs ⟨NewCacheEx, st⟩ = some (s1, outs) →
      (rs.length : Int) ≤ maxInt →
      ∀ k v, s1.captchaCache.Get k = some v → 0 ≤ v ∧ v ≤ rs.length) := by
  refine ⟨⟨fun cfg m => by simp [Captcha.init, newCaptcha], fun k v h => ?_⟩, ?_, ?_⟩
  · simp [NewCacheEx, Cache.Get] at h
  · intro σ ca eng r s s1 out h hinv k v hk
    have hinv1 : ∀ k v, s.captchaCache.Get k = some v → 0 ≤ v ∧ v ≤ maxInt - 1 := by
      intro k v hk
      have := hinv k v hk
      omega
    exact (ServeHTTP_counts ca eng r s s1 out (maxInt - 1) h hinv1 (by decide) (by omega)
      k v hk).1
  · intro σ ca eng rs st s1 outs h hlen k v hk
    have := serveAll_counts ca eng rs ⟨NewCacheEx, st⟩ s1 outs 0 h
      (fun k v h => by simp [NewCacheEx, Cache.Get] at h) (le_refl 0) (by omega) k v hk
    omega

/-- C15, as stated, fails: a tracker whose only count is 9223372036854775807
satisfies the predicate, and after one request of bob on "Login" that solves the
challenge and fails downstream the stored count is -9223372036854775808. -/
theorem C15_counterexample :
    (∀ k v, (NewCacheEx.Set "Login|bob" 9223372036854775807).Get k = some v → 0 ≤ v) ∧
    (ServeHTTP sampleGate (specEngine sampleGenerator)
        (mkRequest "Login" [("User", "bob"), ("CaptchaId", "c1"), ("CaptchaCode", "1234")] true)
        ⟨NewCacheEx.Set "Login|bob" 9223372036854775807, sampleStore⟩).map
        (fun p => p.1.captchaCache.Get "Login|bob") = some (some (-9223372036854775808)) ∧
    (-9223372036854775808 : Int) < 0 := by
  refine ⟨fun k v h => ?_, by decide, by decide⟩
  simp only [Cache.Get, Cache.Set, NewCacheEx] at h
  split at h
  · simp only [Option.some.injEq] at h
    omega
  · exact absurd h (by simp)

/-- Instance of C15 (amended): three failing requests of alice on "Login", served
on the empty tracker, leave her count, 3, between 0 and the number of requests. -/
theorem C15_counts_stay_nonnegative_witness :
    (0 : Int) ≤ 3 ∧ (3 : Int) ≤ ([mkRequest "Login" [("User", "alice")] true,
      mkRequest "Login" [("User", "alice")] true,
      mkRequest "Login" [("User", "alice")] true].length : Int) :=
  C15_counts_stay_nonnegative.2.2 ChallengeStore sampleGate (specEngine sampleGenerator)
    [mkRequest "Login" [("User", "alice")] true, mkRequest "Login" [("User", "alice")] true,
      mkRequest "Login" [("User", "alice")] true] sampleStore
    ⟨NewCacheEx.Set "Login|alice" 1 |>.Set "Login|alice" 2 |>.Set "Login|alice" 3, sampleStore⟩
    [failureEvents "Login|alice" 1, failureEvents "Login|alice" 2,
      failureEvents "Login|alice" 3] (by rfl) (by decide) "Login|alice" 3 (by rfl)

/-- The two steps of one request, run without interruption, are the update of
the failure branch of `counterUpdate`. -/
theorem Incr_steps_eq_counterUpdate (cfg : CaptchaConfig) (cache : Cache) (action : String)
    (form : Values) (hpos : cfg.maxFailCount > 0) :
    (interleave (cacheKey action (form.Get cfg.identifier)) [false, false]
        (cache, Incr.start, Incr.done)).1
      = (counterUpdate cfg cache action form true).1 := by
  simp only [interleave, Incr.step, counterUpdate, hpos, if_true]
  cases cache.Get (cacheKey action (form.Get cfg.identifier)) <;> rfl

/-- C16, evaluated where it fails: two requests record a failure for the key
"Login|alice", whose count is 1.  When each request runs its `Get` and `Set`
without interruption the count ends at 3; under the interleaving Get, Get, Set,
Set both requests read 1 and both write 2, so the count ends at 2 and one
increment is lost. -/
theorem C16_lost_update :
    (NewCacheEx.Set "Login|alice" 1).Get "Login|alice" = some 1 ∧
    ((interleave "Login|alice" [false, false, true, true]
        (NewCacheEx.Set "Login|alice" 1, Incr.start, Incr.start)).1.Get "Login|alice",
      (interleave "Login|alice" [false, false, true, true]
        (NewCacheEx.Set "Login|alice" 1, Incr.start, Incr.start)).2)
      = (some 3, Incr.done, Incr.done) ∧
    ((interleave "Login|alice" [false, true, false, true]
        (NewCacheEx.Set "Login|alice" 1, Incr.start, Incr.start)).1.Get "Login|alice",
      (interleave "Login|alice" [false, true, false, true]
        (NewCacheEx.Set "Login|alice" 1, Incr.start, Incr.start)).2)
      = (some 2, Incr.done, Incr.done) := by
  decide

end Apicaptcha
